import Mathlib

/-!
Verification of the city_generator repository generation pipeline.

The C++ sources are shallowly embedded: machine integers become `Int`
(no arithmetic in the relevant code ever approaches the int overflow range),
`std::vector` becomes `List`, and `float` arithmetic is modelled as exact
rational arithmetic over `ℚ`; comparisons against square roots are encoded
exactly by comparing squares.  Random draws (std::mt19937 through the various
distributions) are modelled as oracle streams passed in as arguments:
every theorem quantifies over all possible draw sequences.
-/

namespace CityGen

set_option maxRecDepth 100000

/-- 2D integer pixel coordinate (include/utils/algorithms.h, struct Point). -/
structure Point where
  x : Int
  y : Int
deriving DecidableEq, Repr

/-- Loop body of `bresenhamLine` (src/src/utils/input_handler.cpp, lines
211-234).  `fuel` bounds the number of iterations; `bresenhamLine` supplies
enough fuel that it is never exhausted. -/
def bresenhamLoop (x1 y1 dx dy sx sy : Int) : Nat → Int → Int → Int → List Point
  | 0, _, _, _ => []
  | fuel+1, x, y, err =>
    Point.mk x y ::
      (if x = x1 ∧ y = y1 then []
       else
         let e2 := 2 * err
         let err1 := if e2 > -dy then err - dy else err
         let x' := if e2 > -dy then x + sx else x
         let err2 := if e2 < dx then err1 + dx else err1
         let y' := if e2 < dx then y + sy else y
         bresenhamLoop x1 y1 dx dy sx sy fuel x' y' err2)

/-- Bresenham line algorithm (src/src/utils/input_handler.cpp, lines
197-237): `dx = |x1-x0|`, `dy = |y1-y0|`, step directions `sx`, `sy`,
error term starting at `dx - dy`. -/
def bresenhamLine (x0 y0 x1 y1 : Int) : List Point :=
  let dx : Int := (x1 - x0).natAbs
  let dy : Int := (y1 - y0).natAbs
  let sx : Int := if x0 < x1 then 1 else -1
  let sy : Int := if y0 < y1 then 1 else -1
  bresenhamLoop x1 y1 dx dy sx sy (dx.toNat + dy.toNat + 1) x0 y0 (dx - dy)

/-- The eight mirrored points pushed by `addSymmetricPoints`
(src/src/utils/input_handler.cpp, lines 250-259). -/
def addSymmetricPoints (cx cy x y : Int) : List Point :=
  [⟨cx + x, cy + y⟩, ⟨cx - x, cy + y⟩, ⟨cx + x, cy - y⟩, ⟨cx - x, cy - y⟩,
   ⟨cx + y, cy + x⟩, ⟨cx - y, cy + x⟩, ⟨cx + y, cy - x⟩, ⟨cx - y, cy - x⟩]

/-- Loop of `midpointCircle` (src/src/utils/input_handler.cpp, lines
265-278): while `x < y`, advance `x`, update the decision parameter `d`
(and possibly decrement `y`), then emit the eight mirrored points. -/
def midpointLoop (cx cy : Int) : Nat → Int → Int → Int → List Point
  | 0, _, _, _ => []
  | fuel+1, x, y, d =>
    if x < y then
      let x' := x + 1
      let d' := if d < 0 then d + 2 * x' + 1 else d + 2 * (x' - (y - 1)) + 1
      let y' := if d < 0 then y else y - 1
      addSymmetricPoints cx cy x' y' ++ midpointLoop cx cy fuel x' y' d'
    else []

/-- Midpoint circle algorithm (src/src/utils/input_handler.cpp, lines
242-281): initial state `x = 0`, `y = radius`, `d = 1 - radius`, initial
batch of mirrored points, then the octant loop. -/
def midpointCircle (centerX centerY radius : Int) : List Point :=
  addSymmetricPoints centerX centerY 0 radius ++
    midpointLoop centerX centerY (radius.toNat + 1) 0 radius (1 - radius)

/-- Adjacent pixels: two points differing by at most one in each axis. -/
def stepAdjacent (p q : Point) : Prop :=
  (q.x - p.x).natAbs ≤ 1 ∧ (q.y - p.y).natAbs ≤ 1

/-- Output description for one run of `bresenhamLoop` that still has `a`
steps to go on the major axis and `b` steps on the minor axis: length,
first and last point, gap-freeness, and a bounding box for every point. -/
def bresProps (x1 y1 sx sy : Int) (a b : Nat) (L : List Point) : Prop :=
  L.length = a + 1 ∧
  L.head? = some (Point.mk (x1 - sx * a) (y1 - sy * b)) ∧
  L.getLast? = some (Point.mk x1 y1) ∧
  List.Chain' stepAdjacent L ∧
  ∀ p ∈ L, ∃ a2 b2 : Nat, a2 ≤ a ∧ b2 ≤ b ∧
    p = Point.mk (x1 - sx * a2) (y1 - sy * b2)

/-- Coordinate transposition. -/
def transposePt (p : Point) : Point := Point.mk p.y p.x

/-! ## Data model and configuration

Embedded from include/rendering/shaders/shader_manager.h (CityConfig and
the enums), the road_generator header (Road) and the city_generator header
(Building, CityData).  C++ `float` fields become `ℚ`: the generation code
only adds, subtracts, multiplies, divides and compares, which we model as
exact rational arithmetic; comparisons involving `sqrt` are encoded exactly
by comparing squares (see `distLt` and `ltSqrtPlusBuf`). -/

inductive RoadPattern | GRID | RADIAL | RANDOM
deriving DecidableEq, Repr

inductive SkylineType | LOW_RISE | MID_RISE | SKYSCRAPER | MIXED
deriving DecidableEq, Repr

inductive TextureTheme | MODERN | CLASSIC | INDUSTRIAL | FUTURISTIC
deriving DecidableEq, Repr

inductive BuildingType | LOW_RISE | MID_RISE | HIGH_RISE
deriving DecidableEq, Repr

/-- Road segment: rasterized path plus width in pixels. -/
structure Road where
  points : List Point
  width : Int
deriving DecidableEq, Repr

/-- A 3D-extruded rectangular building footprint. -/
structure Building where
  x : ℚ
  y : ℚ
  width : ℚ
  depth : ℚ
  height : ℚ
  type : BuildingType
deriving DecidableEq, Repr

/-- The aggregate city snapshot. -/
structure CityData where
  roads : List Road
  parks : List (List Point)
  fountain : List Point
  buildings : List Building
  isGenerated : Bool
deriving DecidableEq, Repr

/-- Generation parameters (struct CityConfig). -/
structure CityConfig where
  numBuildings : Int
  layoutSize : Int
  roadPattern : RoadPattern
  roadWidth : Int
  skylineType : SkylineType
  textureTheme : TextureTheme
  parkRadius : Int
  numParks : Int
  fountainRadius : Int
  useStandardSize : Bool
  standardWidth : ℚ
  standardDepth : ℚ
  view3D : Bool
deriving DecidableEq, Repr

/-! ## Exact encodings of the floating-point geometry

The C++ code derives a circle center as the coordinate average of the
boundary points and a radius as the maximum euclidean distance from that
center to a boundary point.  Downstream comparisons appear in three forms,
each encoded exactly over `ℚ`:
* `distanceSquared <= radius * radius` - already square-free, kept as is
  via the squared radius `rsq`;
* `sqrt(dsq) < m` (park placement) - encoded by `distLt`;
* `dsq < (radius + buf)^2` with `radius = sqrt rsq` (building placement) -
  encoded by `ltSqrtPlusBuf`. -/

/-- Squared euclidean distance between `(ax, ay)` and `(bx, c)`. -/
def distSq (ax ay bx c : ℚ) : ℚ := (ax - bx) ^ 2 + (ay - c) ^ 2

/-- Exact test for `sqrt dsq < m`, assuming `0 ≤ dsq`. -/
def distLt (dsq m : ℚ) : Bool := decide (0 < m) && decide (dsq < m ^ 2)

/-- Exact test for `dsq < (sqrt rsq + buf)^2`, assuming `0 ≤ rsq` and
`0 ≤ buf`. -/
def ltSqrtPlusBuf (dsq rsq buf : ℚ) : Bool :=
  decide (dsq - rsq - buf ^ 2 < 0) ||
    decide ((dsq - rsq - buf ^ 2) ^ 2 < 4 * buf ^ 2 * rsq)

/-- Coordinate average of a point list (the float mean, exact in `ℚ`). -/
def centroid (pts : List Point) : ℚ × ℚ :=
  ((pts.map fun p => (p.x : ℚ)).sum / pts.length,
   (pts.map fun p => (p.y : ℚ)).sum / pts.length)

/-- Maximum squared distance from `(cx, cy)` to a point of `pts`, starting
from 0 (the square of the float fold `radius = max(radius, dist)`). -/
def maxDistSqFrom (cx cy : ℚ) (pts : List Point) : ℚ :=
  pts.foldl (fun m p => max m (distSq (p.x : ℚ) (p.y : ℚ) cx cy)) 0

/-! ## Park and fountain placement (CityGenerator::generateParks,
src/src/generation/city_generator.cpp lines 37-133)

The random draws of the candidate park centers are modelled as a stream
`cand : Nat → Int × Int` indexed by the attempt counter; in the original
the draws are uniform within `parkRadius + 50` margins, and every theorem
below quantifies over all streams. -/

/-- Validity of a candidate park center `(x, y)`: CHECK 1 keeps distance at
least `parkRadius * 2.5` from the centroid of every existing park, CHECK 2
keeps distance at least `parkRadius + fountainRadius + 30` from the canvas
center when a fountain is configured. -/
def parkValid (w h : Int) (cfg : CityConfig) (parks : List (List Point))
    (x y : Int) : Bool :=
  (parks.all fun existingPark =>
    if existingPark.isEmpty then true
    else
      let c := centroid existingPark
      let minParkDistance : ℚ := (cfg.parkRadius : ℚ) * (5 / 2)
      !distLt (distSq (x : ℚ) (y : ℚ) c.1 c.2) minParkDistance) &&
  (if 0 < cfg.fountainRadius then
    let centerX : Int := w / 2
    let centerY : Int := h / 2
    let minFountainDistance : ℚ :=
      (cfg.parkRadius : ℚ) + (cfg.fountainRadius : ℚ) + 30
    !distLt (distSq (x : ℚ) (y : ℚ) (centerX : ℚ) (centerY : ℚ))
      minFountainDistance
  else true)

/-- The park placement loop: `rem` is the remaining attempt budget,
`attempts` the attempts already used, and the accumulated parks stand in
for the loop counter `i` (which equals the number of parks placed). -/
def parkLoop (w h : Int) (cfg : CityConfig) (cand : Nat → Int × Int) :
    Nat → Nat → List (List Point) → List (List Point) × Nat
  | 0, attempts, parks => (parks, attempts)
  | rem + 1, attempts, parks =>
    if (parks.length : Int) < cfg.numParks then
      let c := cand attempts
      if parkValid w h cfg parks c.1 c.2 then
        parkLoop w h cfg cand rem (attempts + 1)
          (parks ++ [midpointCircle c.1 c.2 cfg.parkRadius])
      else
        parkLoop w h cfg cand rem (attempts + 1) parks
    else (parks, attempts)

/-- CityGenerator::generateParks: early return when `numParks == 0`
(skipping the fountain code as well), otherwise the placement loop with a
shared budget of `numParks * 100` attempts followed by the central fountain
when `fountainRadius > 0`.  Returns (parks, fountain, attempts used). -/
def generateParks (w h : Int) (cfg : CityConfig) (cand : Nat → Int × Int) :
    List (List Point) × List Point × Nat :=
  if cfg.numParks = 0 then ([], [], 0)
  else
    let r := parkLoop w h cfg cand (cfg.numParks * 100).toNat 0 []
    let fountain :=
      if 0 < cfg.fountainRadius then
        midpointCircle (w / 2) (h / 2) cfg.fountainRadius
      else []
    (r.1, fountain, r.2)

/-! ## Road generation (RoadGenerator, src/src/generation/city_generator.cpp
second part, lines 409-688)

The mt19937 draws of the RANDOM pattern are modelled as streams (`node`
for the random interior points, `idx` for the node index pairs); indices
drawn by the original are always within range, out-of-range lookups in the
model default to (0,0).  The RADIAL pattern computes spoke endpoints with
floating-point `cos`/`sin`; the truncated integer offsets
`maxRadius*cos(angle)`, `maxRadius*sin(angle)` are supplied by the `spoke`
oracle stream. -/

structure RoadDraws where
  spoke : Nat → Int × Int
  node : Nat → Point
  idx : Nat → Nat × Nat

/-- RoadGenerator::createRoad. -/
def createRoad (x0 y0 x1 y1 wdt : Int) : Road :=
  Road.mk (bresenhamLine x0 y0 x1 y1) wdt

/-- RoadGenerator::generateGridRoads: `margin = 50`,
`spacing = (screenWidth - 2*margin) / layoutSize`, then `layoutSize + 1`
horizontal full-span roads followed by `layoutSize + 1` vertical ones. -/
def generateGridRoads (w h : Int) (cfg : CityConfig) : List Road :=
  let margin : Int := 50
  let spacing : Int := (w - 2 * margin) / cfg.layoutSize
  let horizontal := (List.range (cfg.layoutSize + 1).toNat).map fun (i : Nat) =>
    let y := margin + (i : Int) * spacing
    createRoad margin y (w - margin) y cfg.roadWidth
  let vertical := (List.range (cfg.layoutSize + 1).toNat).map fun (i : Nat) =>
    let x := margin + (i : Int) * spacing
    createRoad x margin x (h - margin) cfg.roadWidth
  horizontal ++ vertical

/-- RoadGenerator::generateRadialRoads: `layoutSize` spokes from the canvas
center (endpoints clamped into the margins), then `layoutSize / 2` rings,
each a rasterized circle filtered to the margins and re-segmented into
chords sampled every 8th point. -/
def generateRadialRoads (w h : Int) (cfg : CityConfig)
    (spoke : Nat → Int × Int) : List Road :=
  let centerX := w / 2
  let centerY := h / 2
  let maxRadius := min w h / 2 - 50
  let margin : Int := 50
  let spokes := (List.range cfg.layoutSize.toNat).map fun i =>
    let e := spoke i
    let endX := max margin (min (w - margin) (centerX + e.1))
    let endY := max margin (min (h - margin) (centerY + e.2))
    createRoad centerX centerY endX endY cfg.roadWidth
  let numRings := cfg.layoutSize / 2
  let rings := (List.range numRings.toNat).bind fun (r0 : Nat) =>
    let ring : Int := (r0 : Int) + 1
    let radius := maxRadius * ring / numRings
    let circlePoints := midpointCircle centerX centerY radius
    let validPoints := circlePoints.filter fun pt =>
      decide (margin ≤ pt.x) && decide (pt.x ≤ w - margin) &&
      decide (margin ≤ pt.y) && decide (pt.y ≤ h - margin)
    (List.range ((validPoints.length + 7) / 8)).filterMap fun k =>
      let i := 8 * k
      let nextIdx := (i + 8) % validPoints.length
      if nextIdx < validPoints.length then
        let p1 := validPoints.getD i (Point.mk 0 0)
        let p2 := validPoints.getD nextIdx (Point.mk 0 0)
        some (createRoad p1.x p1.y p2.x p2.y cfg.roadWidth)
      else none
  spokes ++ rings

/-- RoadGenerator::generateRandomRoads: `2*layoutSize` random nodes plus
the four corner nodes, then `3*layoutSize` chords between randomly drawn
node pairs, skipping pairs with equal indices. -/
def generateRandomRoads (w h : Int) (cfg : CityConfig)
    (node : Nat → Point) (idx : Nat → Nat × Nat) : List Road :=
  let nodes := (List.range (cfg.layoutSize * 2).toNat).map node ++
    [Point.mk 100 100, Point.mk (w - 100) 100, Point.mk 100 (h - 100),
     Point.mk (w - 100) (h - 100)]
  (List.range (cfg.layoutSize * 3).toNat).filterMap fun i =>
    let p := idx i
    if p.1 ≠ p.2 then
      let n1 := nodes.getD p.1 (Point.mk 0 0)
      let n2 := nodes.getD p.2 (Point.mk 0 0)
      some (createRoad n1.x n1.y n2.x n2.y cfg.roadWidth)
    else none

/-- RoadGenerator::generateRoads: dispatch on the configured pattern. -/
def generateRoads (w h : Int) (cfg : CityConfig) (d : RoadDraws) : List Road :=
  match cfg.roadPattern with
  | RoadPattern.GRID => generateGridRoads w h cfg
  | RoadPattern.RADIAL => generateRadialRoads w h cfg d.spoke
  | RoadPattern.RANDOM => generateRandomRoads w h cfg d.node d.idx

/-- Circle derived from a stored boundary point set: centroid plus the
SQUARED maximum distance (the C++ code stores the radius itself but only
ever compares `radius * radius`, so the squared form is an exact model). -/
structure Circle where
  centerX : ℚ
  centerY : ℚ
  rsq : ℚ
deriving DecidableEq, Repr

/-- Center and squared radius derived from a boundary point list. -/
def mkCircle (pts : List Point) : Circle :=
  let c := centroid pts
  Circle.mk c.1 c.2 (maxDistSqFrom c.1 c.2 pts)

/-- The circle list built by generateRoadsAvoidingObstacles: every
non-empty park, then the fountain when non-empty. -/
def obstacleCircles (parks : List (List Point)) (fountain : List Point) :
    List Circle :=
  (parks.filter fun p => !p.isEmpty).map mkCircle ++
    (if fountain.isEmpty then [] else [mkCircle fountain])

/-- A road point is discarded when `distanceSquared <= radiusSquared` for
some circle. -/
def pointInsideSome (circles : List Circle) (p : Point) : Bool :=
  circles.any fun c =>
    decide (distSq (p.x : ℚ) (p.y : ℚ) c.centerX c.centerY ≤ c.rsq)

/-- RoadGenerator::generateRoadsAvoidingObstacles (lines 584-688): generate
the configured road pattern, then filter out every road point inside a
park or fountain circle, dropping roads left with no points. -/
def generateRoadsAvoidingObstacles (w h : Int) (cfg : CityConfig)
    (d : RoadDraws) (parks : List (List Point)) (fountain : List Point) :
    List Road :=
  let allRoads := generateRoads w h cfg d
  let circles := obstacleCircles parks fountain
  allRoads.foldl (fun filteredRoads road =>
    let filteredPoints := road.points.filter fun p => !pointInsideSome circles p
    if filteredPoints.isEmpty then filteredRoads
    else filteredRoads ++ [Road.mk filteredPoints road.width]) []

/-! ## Building placement (CityGenerator::generateBuildings and
CityGenerator::isValidBuildingPosition, lines 135-408)

One attempt consumes one `BuildingDraw` from the oracle stream: the integer
position draws, the (float) random size draws used when `useStandardSize`
is off, the 3-way type choice, and the three potential height draws of
which the skyline policy selects one. -/

structure BuildingDraw where
  x : Int
  y : Int
  randWidth : ℚ
  randDepth : ℚ
  typeChoice : Nat
  lowH : ℚ
  midH : ℚ
  highH : ℚ

/-- The skyline policy switch (lines 193-236): maps the configured skyline
type and the per-building 3-way draw to a building type and height. -/
def skylineAssign (cfg : CityConfig) (d : BuildingDraw) : BuildingType × ℚ :=
  match cfg.skylineType with
  | SkylineType.LOW_RISE => (BuildingType.LOW_RISE, d.lowH)
  | SkylineType.MID_RISE => (BuildingType.MID_RISE, d.midH)
  | SkylineType.MIXED =>
      if d.typeChoice = 0 then (BuildingType.LOW_RISE, d.lowH)
      else if d.typeChoice = 1 then (BuildingType.MID_RISE, d.midH)
      else (BuildingType.HIGH_RISE, d.highH)
  | SkylineType.SKYSCRAPER =>
      if d.typeChoice ≤ 1 then (BuildingType.HIGH_RISE, d.highH)
      else (BuildingType.MID_RISE, d.midH)

/-- CityGenerator::isValidBuildingPosition: screen margin check, strict
AABB separation from every existing building (25px buffer), two-stage
circle tests against every park and the fountain (35px buffer), and the
road point containment test (5px buffer plus half the road width). -/
def isValidBuildingPosition (w h : Int) (roads : List Road)
    (parks : List (List Point)) (fountain : List Point)
    (buildings : List Building) (x y width depth : ℚ) : Bool :=
  let halfWidth := width / 2
  let halfDepth := depth / 2
  let buildingBuffer : ℚ := 25
  let buildingLeft := x - halfWidth
  let buildingRight := x + halfWidth
  let buildingTop := y - halfDepth
  let buildingBottom := y + halfDepth
  let screenMargin : ℚ := 60
  if decide (buildingLeft < screenMargin) ||
      decide (buildingRight > (w : ℚ) - screenMargin) ||
      decide (buildingTop < screenMargin) ||
      decide (buildingBottom > (h : ℚ) - screenMargin) then false
  else if buildings.any (fun existingBuilding =>
      let existingLeft := existingBuilding.x - existingBuilding.width / 2
      let existingRight := existingBuilding.x + existingBuilding.width / 2
      let existingTop := existingBuilding.y - existingBuilding.depth / 2
      let existingBottom := existingBuilding.y + existingBuilding.depth / 2
      !(decide (buildingRight + buildingBuffer < existingLeft) ||
        decide (buildingLeft - buildingBuffer > existingRight) ||
        decide (buildingBottom + buildingBuffer < existingTop) ||
        decide (buildingTop - buildingBuffer > existingBottom))) then false
  else if parks.any (fun park =>
      if park.isEmpty then false
      else
        let parkBuffer : ℚ := 35
        let c := centroid park
        let parkRsq := maxDistSqFrom c.1 c.2 park
        let closestX := max (buildingLeft - parkBuffer)
          (min c.1 (buildingRight + parkBuffer))
        let closestY := max (buildingTop - parkBuffer)
          (min c.2 (buildingBottom + parkBuffer))
        ltSqrtPlusBuf (distSq closestX closestY c.1 c.2) parkRsq parkBuffer ||
        park.any (fun pt =>
          decide ((pt.x : ℚ) ≥ buildingLeft - parkBuffer) &&
          decide ((pt.x : ℚ) ≤ buildingRight + parkBuffer) &&
          decide ((pt.y : ℚ) ≥ buildingTop - parkBuffer) &&
          decide ((pt.y : ℚ) ≤ buildingBottom + parkBuffer))) then false
  else if !fountain.isEmpty &&
      (let fountainBuffer : ℚ := 35
       let c := centroid fountain
       let fountainRsq := maxDistSqFrom c.1 c.2 fountain
       let closestX := max (buildingLeft - fountainBuffer)
         (min c.1 (buildingRight + fountainBuffer))
       let closestY := max (buildingTop - fountainBuffer)
         (min c.2 (buildingBottom + fountainBuffer))
       ltSqrtPlusBuf (distSq closestX closestY c.1 c.2) fountainRsq
         fountainBuffer) then false
  else if roads.any (fun road =>
      road.points.any (fun pt =>
        let roadBuffer : ℚ := 5
        let roadHalfWidth := (road.width : ℚ) / 2
        decide ((pt.x : ℚ) ≥ buildingLeft - roadBuffer - roadHalfWidth) &&
        decide ((pt.x : ℚ) ≤ buildingRight + roadBuffer + roadHalfWidth) &&
        decide ((pt.y : ℚ) ≥ buildingTop - roadBuffer - roadHalfWidth) &&
        decide ((pt.y : ℚ) ≤ buildingBottom + roadBuffer + roadHalfWidth)))
    then false
  else true

/-- The building placement loop with its shared attempt budget `rem`. -/
def buildingLoop (w h : Int) (cfg : CityConfig) (roads : List Road)
    (parks : List (List Point)) (fountain : List Point)
    (draw : Nat → BuildingDraw) :
    Nat → Nat → List Building → List Building × Nat
  | 0, attempts, buildings => (buildings, attempts)
  | rem + 1, attempts, buildings =>
    if (buildings.length : Int) < cfg.numBuildings then
      let d := draw attempts
      let x : ℚ := (d.x : ℚ)
      let y : ℚ := (d.y : ℚ)
      let width : ℚ := if cfg.useStandardSize then cfg.standardWidth
        else d.randWidth
      let depth : ℚ := if cfg.useStandardSize then cfg.standardDepth
        else d.randDepth
      if isValidBuildingPosition w h roads parks fountain buildings
          x y width depth then
        let th := skylineAssign cfg d
        buildingLoop w h cfg roads parks fountain draw rem (attempts + 1)
          (buildings ++ [Building.mk x y width depth th.2 th.1])
      else
        buildingLoop w h cfg roads parks fountain draw rem (attempts + 1)
          buildings
    else (buildings, attempts)

/-- CityGenerator::generateBuildings: early return when
`numBuildings == 0`, otherwise the placement loop with a shared budget of
`numBuildings * 50` attempts.  Returns (buildings, attempts used). -/
def generateBuildings (w h : Int) (cfg : CityConfig) (roads : List Road)
    (parks : List (List Point)) (fountain : List Point)
    (draw : Nat → BuildingDraw) : List Building × Nat :=
  if cfg.numBuildings = 0 then ([], 0)
  else buildingLoop w h cfg roads parks fountain draw
    (cfg.numBuildings * 50).toNat 0 []

/-- CityGenerator::generateCity (lines 10-35): clear, then parks and
fountain, then roads filtered against them, then buildings, then mark the
snapshot generated. -/
def generateCity (w h : Int) (cfg : CityConfig) (pcand : Nat → Int × Int)
    (rd : RoadDraws) (bdraw : Nat → BuildingDraw) : CityData :=
  let pr := generateParks w h cfg pcand
  let roads := generateRoadsAvoidingObstacles w h cfg rd pr.1 pr.2.1
  let bld := generateBuildings w h cfg roads pr.1 pr.2.1 bdraw
  CityData.mk roads pr.1 pr.2.1 bld.1 true

/-! ## Claim C1: fountain placement -/

/-- The stock configuration: the CityConfig constructor defaults
(shader_manager.h lines 217-231); the constructor then calls
`updateStandardBuildingSize`, giving standard size
`(800 - 100) / 10 * 0.4 = 28`. -/
def defaultConfig : CityConfig :=
  CityConfig.mk 20 10 RoadPattern.GRID 14 SkylineType.MIXED
    TextureTheme.MODERN 40 3 25 true 28 28 false

/-- A configuration that cannot be satisfied on a 200x200 canvas with the
given draw streams: every park candidate sits on the fountain center and
every building candidate violates the screen margin, so both loops exhaust
their budgets with a shortfall. -/
def shortfallConfig : CityConfig :=
  CityConfig.mk 1 10 RoadPattern.GRID 14 SkylineType.MIXED
    TextureTheme.MODERN 10 1 25 true 50 50 false

/-! ## Claim C3: obstacle-aware road filtering -/

/-- Spec-side description of the filter (specification section 4.3): each
road keeps, in original order and at its original width, exactly the
points whose distance to every derived circle center exceeds that circle
radius; roads left with no points are dropped. -/
def roadsFilteredSpec (allRoads : List Road) (parks : List (List Point))
    (fountain : List Point) : List Road :=
  (allRoads.map fun road =>
    Road.mk (road.points.filter fun p =>
      decide (∀ c ∈ obstacleCircles parks fountain,
        c.rsq < distSq (p.x : ℚ) (p.y : ℚ) c.centerX c.centerY))
      road.width).filter fun road => !road.points.isEmpty

/-- Configuration for the C3 witness: RANDOM pattern with draws producing
a single short road far away from the obstacle circle. -/
def c3Config : CityConfig :=
  CityConfig.mk 1 1 RoadPattern.RANDOM 2 SkylineType.MIXED
    TextureTheme.MODERN 10 1 25 true 28 28 false

def c3Draws : RoadDraws :=
  RoadDraws.mk (fun _ => (0, 0))
    (fun n => if n = 0 then Point.mk 200 200 else Point.mk 210 200)
    (fun n => if n = 0 then (0, 1) else (0, 0))

/-! ## Claim C4: park separation invariants -/

/-- `sqrt dsq ≥ m`, expressed exactly over `ℚ` (for a possibly negative
bound `m`). -/
def distGe (dsq m : ℚ) : Prop := m ≤ 0 ∨ m ^ 2 ≤ dsq

/-- Separation required between the derived centers of two placed parks. -/
def parksSeparated (cfg : CityConfig) (p q : List Point) : Prop :=
  distGe (distSq (centroid p).1 (centroid p).2 (centroid q).1 (centroid q).2)
    ((cfg.parkRadius : ℚ) * (5 / 2))

/-- Separation required between a placed park and the fountain center. -/
def parkClearOfFountain (w h : Int) (cfg : CityConfig)
    (p : List Point) : Prop :=
  distGe (distSq (centroid p).1 (centroid p).2 ((w / 2 : Int) : ℚ)
    ((h / 2 : Int) : ℚ))
    ((cfg.parkRadius : ℚ) + (cfg.fountainRadius : ℚ) + 30)

/-- Configuration and draw streams for the C4/C5 witnesses: two parks, a
fountain, no roads (all node index pairs equal), and buildings as
configured per witness. -/
def c4Config : CityConfig :=
  CityConfig.mk 1 1 RoadPattern.RANDOM 2 SkylineType.MIXED
    TextureTheme.MODERN 10 2 25 true 28 28 false

def c4ParkCand : Nat → Int × Int :=
  fun n => if n = 0 then (100, 100) else (300, 100)

def c4RoadDraws : RoadDraws :=
  RoadDraws.mk (fun _ => (0, 0)) (fun _ => Point.mk 0 0) (fun _ => (0, 0))

def c4BuildingDraw : Nat → BuildingDraw :=
  fun _ => BuildingDraw.mk 0 0 0 0 0 0 0 0

/-! ## Claim C5: building separation invariants -/

/-- Strict 25px AABB separation between two building footprints (the
acceptance condition of the pairwise check). -/
def buildingsSeparated (b1 b2 : Building) : Prop :=
  b1.x + b1.width / 2 + 25 < b2.x - b2.width / 2 ∨
  b1.x - b1.width / 2 - 25 > b2.x + b2.width / 2 ∨
  b1.y + b1.depth / 2 + 25 < b2.y - b2.depth / 2 ∨
  b1.y - b1.depth / 2 - 25 > b2.y + b2.depth / 2

/-- The circle-distance stage of the park/fountain overlap test passes for
a placed building (closest point of the 35px-padded box to the derived
circle center is not within the buffered radius). -/
def buildingClearOfCircle (b : Building) (pts : List Point) : Prop :=
  ltSqrtPlusBuf
    (distSq
      (max (b.x - b.width / 2 - 35)
        (min (centroid pts).1 (b.x + b.width / 2 + 35)))
      (max (b.y - b.depth / 2 - 35)
        (min (centroid pts).2 (b.y + b.depth / 2 + 35)))
      (centroid pts).1 (centroid pts).2)
    (maxDistSqFrom (centroid pts).1 (centroid pts).2 pts) 35 = false

/-- The per-boundary-point containment stage passes: every boundary point
lies strictly outside the 35px-padded building box. -/
def buildingClearOfPoints (b : Building) (pts : List Point) : Prop :=
  ∀ pt ∈ pts,
    (pt.x : ℚ) < b.x - b.width / 2 - 35 ∨
    (pt.x : ℚ) > b.x + b.width / 2 + 35 ∨
    (pt.y : ℚ) < b.y - b.depth / 2 - 35 ∨
    (pt.y : ℚ) > b.y + b.depth / 2 + 35

/-- No road point lies inside the building box expanded by half the road
width plus the 5px road buffer. -/
def buildingClearOfRoad (b : Building) (road : Road) : Prop :=
  ∀ pt ∈ road.points,
    (pt.x : ℚ) < b.x - b.width / 2 - 5 - (road.width : ℚ) / 2 ∨
    (pt.x : ℚ) > b.x + b.width / 2 + 5 + (road.width : ℚ) / 2 ∨
    (pt.y : ℚ) < b.y - b.depth / 2 - 5 - (road.width : ℚ) / 2 ∨
    (pt.y : ℚ) > b.y + b.depth / 2 + 5 + (road.width : ℚ) / 2

/-- All the obstacle-clearance conditions of one building against the
fixed roads, parks and fountain. -/
def buildingClearAll (roads : List Road) (parks : List (List Point))
    (fountain : List Point) (b : Building) : Prop :=
  (∀ park ∈ parks, park ≠ [] →
    buildingClearOfCircle b park ∧ buildingClearOfPoints b park) ∧
  (fountain ≠ [] → buildingClearOfCircle b fountain) ∧
  (∀ road ∈ roads, buildingClearOfRoad b road)

/-- Configuration and draw streams for the C5 witness: one park, the
fountain, one road, and two successfully placed buildings. -/
def c5Config : CityConfig :=
  CityConfig.mk 2 1 RoadPattern.RANDOM 2 SkylineType.MIXED
    TextureTheme.MODERN 2 1 1 true 30 30 false

def c5ParkCand : Nat → Int × Int := fun _ => (150, 150)

def c5RoadDraws : RoadDraws :=
  RoadDraws.mk (fun _ => (0, 0))
    (fun n => if n = 0 then Point.mk 100 450 else Point.mk 102 450)
    (fun n => if n = 0 then (0, 1) else (0, 0))

def c5BuildingDraw : Nat → BuildingDraw :=
  fun n => if n = 0 then BuildingDraw.mk 450 150 30 30 0 10 40 120
    else BuildingDraw.mk 450 450 30 30 0 10 40 120

/-- The length of the octant loop output does not depend on the center. -/
theorem midpointLoop_length_center (cx cy cx2 cy2 : Int) :
    ∀ (fuel : Nat) (x y d : Int),
      (midpointLoop cx cy fuel x y d).length =
        (midpointLoop cx2 cy2 fuel x y d).length := by
  intro fuel
  induction fuel with
  | zero => intro x y d; rfl
  | succ n ih =>
    intro x y d
    simp only [midpointLoop]
    by_cases h : x < y
    · simp only [h, if_true, List.length_append, addSymmetricPoints,
        List.length_cons, List.length_nil, ih]
    · simp [h]

/-- The octant loop always emits a multiple of eight points. -/
theorem midpointLoop_length_mod8 (cx cy : Int) :
    ∀ (fuel : Nat) (x y d : Int), (midpointLoop cx cy fuel x y d).length % 8 = 0 := by
  intro fuel
  induction fuel with
  | zero => intro x y d; rfl
  | succ n ih =>
    intro x y d
    simp only [midpointLoop]
    by_cases h : x < y
    · simp only [h, if_true, List.length_append, addSymmetricPoints,
        List.length_cons, List.length_nil]
      have h8 := ih (x + 1) (if d < 0 then y else y - 1)
        (if d < 0 then d + 2 * (x + 1) + 1 else d + 2 * (x + 1 - (y - 1)) + 1)
      omega
    · simp [h]

/-- The length of `midpointCircle` does not depend on the center. -/
theorem midpointCircle_length_center (cx cy r : Int) :
    (midpointCircle cx cy r).length = (midpointCircle 0 0 r).length := by
  simp only [midpointCircle, List.length_append, addSymmetricPoints,
    List.length_cons, List.length_nil]
  rw [midpointLoop_length_center cx cy 0 0]

/-- C7: `midpointCircle` produces exactly 464 points for radius 80, 296 for
radius 50 and 176 for radius 30, for any center. -/
theorem midpointCircle_regression_counts (cx cy : Int) :
    (midpointCircle cx cy 80).length = 464 ∧
    (midpointCircle cx cy 50).length = 296 ∧
    (midpointCircle cx cy 30).length = 176 := by
  refine ⟨?_, ?_, ?_⟩ <;> rw [midpointCircle_length_center] <;> rfl

/-- C9: `midpointCircle` with radius 0 produces a minimal valid result: a
non-empty list all of whose points equal the center (the eight-fold
degenerate center point). -/
theorem midpointCircle_radius_zero (cx cy : Int) :
    midpointCircle cx cy 0 ≠ [] ∧
      ∀ p ∈ midpointCircle cx cy 0, p = Point.mk cx cy := by
  constructor
  · simp [midpointCircle, addSymmetricPoints]
  · intro p hp
    have hrep : midpointCircle cx cy 0 = List.replicate 8 (Point.mk cx cy) := by
      simp [midpointCircle, midpointLoop, addSymmetricPoints,
        List.replicate_succ]
    rw [hrep] at hp
    exact List.eq_of_mem_replicate hp

/-- Witness for C9 at center (3,4). -/
theorem midpointCircle_radius_zero_witness :
    Point.mk 3 4 ∈ midpointCircle 3 4 0 ∧ Point.mk 3 4 = Point.mk 3 4 :=
  ⟨by decide, (midpointCircle_radius_zero 3 4).2 (Point.mk 3 4) (by decide)⟩

/-- A list starting with two equal elements has duplicates. -/
theorem not_nodup_cons_cons (a : Point) (l : List Point) :
    ¬ (a :: a :: l).Nodup := by
  intro h
  exact (List.nodup_cons.mp h).1 (List.mem_cons_self a l)

/-- C10: for every center and non-negative radius the output length of
`midpointCircle` is a positive multiple of 8 (each octant point is emitted
with all eight mirror images), and coincident mirrors are not deduplicated,
so the output contains duplicate points. -/
theorem midpointCircle_length_eightfold (cx cy r : Int) (_hr : 0 ≤ r) :
    (midpointCircle cx cy r).length % 8 = 0 ∧
      0 < (midpointCircle cx cy r).length ∧
      ¬ (midpointCircle cx cy r).Nodup := by
  refine ⟨?_, ?_, ?_⟩
  · simp only [midpointCircle, List.length_append, addSymmetricPoints,
      List.length_cons, List.length_nil]
    have h8 := midpointLoop_length_mod8 cx cy (r.toNat + 1) 0 r (1 - r)
    omega
  · simp only [midpointCircle, List.length_append, addSymmetricPoints,
      List.length_cons, List.length_nil]
    omega
  · intro h
    have hmc : midpointCircle cx cy r =
        Point.mk cx (cy + r) :: Point.mk cx (cy + r) ::
          (Point.mk cx (cy - r) :: Point.mk cx (cy - r) ::
            Point.mk (cx + r) cy :: Point.mk (cx - r) cy ::
            Point.mk (cx + r) cy :: Point.mk (cx - r) cy :: [] ++
            midpointLoop cx cy (r.toNat + 1) 0 r (1 - r)) := by
      simp [midpointCircle, addSymmetricPoints]
    rw [hmc] at h
    exact not_nodup_cons_cons _ _ h

/-- Witness for C10 at center (1,2), radius 2. -/
theorem midpointCircle_length_eightfold_witness :
    (0 : Int) ≤ 2 ∧
      ((midpointCircle 1 2 2).length % 8 = 0 ∧
        0 < (midpointCircle 1 2 2).length ∧
        ¬ (midpointCircle 1 2 2).Nodup) :=
  ⟨by decide, midpointCircle_length_eightfold 1 2 2 (by decide)⟩

theorem list_getLast?_cons_of_ne_nil {α : Type} (a : α) (l : List α)
    (h : l ≠ []) : (a :: l).getLast? = l.getLast? := by
  cases l with
  | nil => exact absurd rfl h
  | cons c t => simp [List.getLast?_cons_cons]

/-- Main invariant argument for the Bresenham loop in the case where the
x axis is the major axis (`dy ≤ dx`).  The state with `a` remaining x steps
and `b` remaining y steps sits at `(x1 - sx*a, y1 - sy*b)` with error term
`dx - dy + (a*dy - b*dx)`; the quantity `2*(a*dy - b*dx)` stays within
`[-dx, dx]`, which forces an x step on every iteration and rules out
overshoot. -/
theorem bresenhamLoop_major (x1 y1 dx dy sx sy : Int)
    (hsx : sx = 1 ∨ sx = -1) (hsy : sy = 1 ∨ sy = -1)
    (hdy : 0 ≤ dy) (hdxy : dy ≤ dx) :
    ∀ (a b fuel : Nat), a + 1 ≤ fuel →
      (a : Int) ≤ dx → (b : Int) ≤ dy →
      |2 * ((a : Int) * dy - (b : Int) * dx)| ≤ dx →
      bresProps x1 y1 sx sy a b
        (bresenhamLoop x1 y1 dx dy sx sy fuel
          (x1 - sx * a) (y1 - sy * b)
          (dx - dy + ((a : Int) * dy - (b : Int) * dx))) := by
  intro a
  induction a with
  | zero =>
    intro b fuel hfuel ha hb hinv
    have hb0 : b = 0 := by
      rcases Nat.eq_zero_or_pos b with h | h
      · exact h
      · exfalso
        have hb1 : (1 : Int) ≤ (b : Int) := by exact_mod_cast h
        have hdx0 : (0 : Int) ≤ dx := le_trans hdy hdxy
        have h2 : dx ≤ (b : Int) * dx := le_mul_of_one_le_left hdx0 hb1
        have h3 : |2 * (((0 : Nat) : Int) * dy - (b : Int) * dx)| =
            2 * ((b : Int) * dx) := by
          rw [Nat.cast_zero, zero_mul, zero_sub, mul_neg, abs_neg]
          exact abs_of_nonneg (by positivity)
        rw [h3] at hinv
        linarith
    subst hb0
    obtain ⟨f, rfl⟩ : ∃ f, fuel = f + 1 := ⟨fuel - 1, by omega⟩
    simp only [Nat.cast_zero, mul_zero, sub_zero, zero_mul, sub_self,
      add_zero]
    simp only [bresenhamLoop, if_pos (And.intro rfl rfl)]
    refine ⟨by simp, by simp, by simp, List.chain'_singleton _, ?_⟩
    intro p hp
    have hp2 : p = Point.mk x1 y1 := by simpa using hp
    exact ⟨0, 0, le_refl 0, le_refl 0, by simp [hp2]⟩
  | succ n ih =>
    intro b fuel hfuel ha hb hinv
    obtain ⟨f, rfl⟩ : ∃ f, fuel = f + 1 := ⟨fuel - 1, by omega⟩
    have hdx0 : (0 : Int) ≤ dx := le_trans hdy hdxy
    have han : ((n : Int) + 1) ≤ dx := by exact_mod_cast ha
    have hdxpos : (0 : Int) < dx := by omega
    have habs := abs_le.mp hinv
    -- the break test fails: x has not reached x1 yet
    have hbreak : ¬(x1 - sx * ((n + 1 : Nat) : Int) = x1 ∧
        y1 - sy * (b : Int) = y1) := by
      rintro ⟨h1, -⟩
      rcases hsx with rfl | rfl <;> (push_cast at h1; omega)
    -- an x step always happens
    have hxstep : -dy < 2 * (dx - dy +
        (((n + 1 : Nat) : Int) * dy - (b : Int) * dx)) := by
      push_cast at habs ⊢
      rcases lt_or_eq_of_le hdxy with hlt | heq
      · linarith [habs.1]
      · subst heq
        by_contra hc
        push_neg at hc
        have h3 : 2 * (((n : Int) + 1) * dy - (b : Int) * dy) = -dy := by
          linarith [habs.1]
        have h4 : (2 * ((n : Int) + 1 - (b : Int)) + 1) * dy = 0 := by
          linear_combination h3
        rcases mul_eq_zero.mp h4 with h5 | h5
        · omega
        · omega
    by_cases hystep : 2 * (dx - dy +
        (((n + 1 : Nat) : Int) * dy - (b : Int) * dx)) < dx
    · -- diagonal step: both x and y advance
      have hbpos : 1 ≤ b := by
        rcases Nat.eq_zero_or_pos b with h0 | h0
        · exfalso
          subst h0
          push_cast at hystep
          have hn : (0 : Int) ≤ (n : Int) * dy :=
            mul_nonneg (by positivity) hdy
          linarith
        · exact h0
      obtain ⟨m, rfl⟩ : ∃ m, b = m + 1 := ⟨b - 1, by omega⟩
      have hinv2 : |2 * ((n : Int) * dy - (m : Int) * dx)| ≤ dx := by
        rw [abs_le]
        push_cast at habs hystep
        constructor <;> [skip; skip] <;> nlinarith [habs.1, habs.2]
      have hIH := ih m f (by omega) (by omega)
        (by push_cast at hb ⊢; omega) hinv2
      obtain ⟨hlen, hhead, hlast, hchain, hpts⟩ := hIH
      have hx : x1 - sx * ((n + 1 : Nat) : Int) + sx =
          x1 - sx * ((n : Nat) : Int) := by push_cast; ring
      have hy : y1 - sy * ((m + 1 : Nat) : Int) + sy =
          y1 - sy * ((m : Nat) : Int) := by push_cast; ring
      have herr : dx - dy + (((n + 1 : Nat) : Int) * dy -
            ((m + 1 : Nat) : Int) * dx) - dy + dx =
          dx - dy + (((n : Nat) : Int) * dy - ((m : Nat) : Int) * dx) := by
        push_cast; ring
      simp only [bresenhamLoop, if_neg hbreak, gt_iff_lt, if_pos hxstep,
        if_pos hystep, hx, hy, herr]
      refine ⟨by simp [hlen], by simp, ?_, ?_, ?_⟩
      · rw [list_getLast?_cons_of_ne_nil _ _ (by
          intro hnil
          rw [hnil] at hlen
          simp at hlen)]
        exact hlast
      · rw [List.chain'_cons']
        refine ⟨?_, hchain⟩
        intro q hq
        rw [hhead] at hq
        simp only [Option.mem_def, Option.some_inj] at hq
        subst hq
        constructor
        · have hdx2 : (x1 - sx * ((n : Nat) : Int)) -
              (x1 - sx * ((n + 1 : Nat) : Int)) = sx := by push_cast; ring
          rw [hdx2]
          rcases hsx with rfl | rfl <;> decide
        · have hdy2 : (y1 - sy * ((m : Nat) : Int)) -
              (y1 - sy * ((m + 1 : Nat) : Int)) = sy := by push_cast; ring
          rw [hdy2]
          rcases hsy with rfl | rfl <;> decide
      · intro p hp
        rcases List.mem_cons.mp hp with hp | hp
        · exact ⟨n + 1, m + 1, le_refl _, le_refl _, hp⟩
        · obtain ⟨a2, b2, h1, h2, rfl⟩ := hpts p hp
          exact ⟨a2, b2, by omega, by omega, rfl⟩
    · -- x-only step
      have hinv2 : |2 * ((n : Int) * dy - (b : Int) * dx)| ≤ dx := by
        rw [abs_le]
        push_neg at hystep
        push_cast at habs hystep
        constructor <;> nlinarith [habs.1, habs.2]
      have hIH := ih b f (by omega) (by omega) hb hinv2
      obtain ⟨hlen, hhead, hlast, hchain, hpts⟩ := hIH
      have hx : x1 - sx * ((n + 1 : Nat) : Int) + sx =
          x1 - sx * ((n : Nat) : Int) := by push_cast; ring
      have herr : dx - dy + (((n + 1 : Nat) : Int) * dy -
            (b : Int) * dx) - dy =
          dx - dy + (((n : Nat) : Int) * dy - (b : Int) * dx) := by
        push_cast; ring
      simp only [bresenhamLoop, if_neg hbreak, gt_iff_lt, if_pos hxstep,
        if_neg hystep, hx, herr]
      refine ⟨by simp [hlen], by simp, ?_, ?_, ?_⟩
      · rw [list_getLast?_cons_of_ne_nil _ _ (by
          intro hnil
          rw [hnil] at hlen
          simp at hlen)]
        exact hlast
      · rw [List.chain'_cons']
        refine ⟨?_, hchain⟩
        intro q hq
        rw [hhead] at hq
        simp only [Option.mem_def, Option.some_inj] at hq
        subst hq
        constructor
        · have hdx2 : (x1 - sx * ((n : Nat) : Int)) -
              (x1 - sx * ((n + 1 : Nat) : Int)) = sx := by push_cast; ring
          rw [hdx2]
          rcases hsx with rfl | rfl <;> decide
        · have hdy2 : (y1 - sy * (b : Int)) - (y1 - sy * (b : Int)) = 0 := by
            ring
          rw [hdy2]
          decide
      · intro p hp
        rcases List.mem_cons.mp hp with hp | hp
        · exact ⟨n + 1, b, le_refl _, le_refl _, hp⟩
        · obtain ⟨a2, b2, h1, h2, rfl⟩ := hpts p hp
          exact ⟨a2, b2, by omega, by omega, rfl⟩

/-- The Bresenham loop is symmetric under swapping the two axes (with the
error term negated). -/
theorem bresenhamLoop_transpose (x1 y1 dx dy sx sy : Int) :
    ∀ (fuel : Nat) (x y err : Int),
      bresenhamLoop x1 y1 dx dy sx sy fuel x y err =
        (bresenhamLoop y1 x1 dy dx sy sx fuel y x (-err)).map transposePt := by
  intro fuel
  induction fuel with
  | zero => intro x y err; rfl
  | succ f ih =>
    intro x y err
    simp only [bresenhamLoop]
    by_cases hend : x = x1 ∧ y = y1
    · rw [if_pos hend, if_pos (And.intro hend.2 hend.1)]
      simp [transposePt]
    · have hend2 : ¬(y = y1 ∧ x = x1) := fun h => hend ⟨h.2, h.1⟩
      rw [if_neg hend, if_neg hend2]
      simp only [List.map_cons, transposePt]
      refine congrArg (Point.mk x y :: ·) ?_
      have hc1 : (2 * -err > -dx) ↔ (2 * err < dx) := by omega
      have hc2 : (2 * -err < dy) ↔ (2 * err > -dy) := by omega
      simp only [hc1, hc2]
      by_cases h1 : 2 * err > -dy <;> by_cases h2 : 2 * err < dx
      · simp only [if_pos h1, if_pos h2]
        have he : -(err - dy + dx) = -err - dx + dy := by ring
        rw [ih, he]
      · simp only [if_pos h1, if_neg h2]
        have he : -(err - dy) = -err + dy := by ring
        rw [ih, he]
      · simp only [if_neg h1, if_pos h2]
        have he : -(err + dx) = -err - dx := by ring
        rw [ih, he]
      · simp only [if_neg h1, if_neg h2]
        rw [ih]

theorem bresenhamLine_eq_loop (x0 y0 x1 y1 : Int) :
    bresenhamLine x0 y0 x1 y1 =
      bresenhamLoop x1 y1 ((x1 - x0).natAbs : Int) ((y1 - y0).natAbs : Int)
        (if x0 < x1 then 1 else -1) (if y0 < y1 then 1 else -1)
        ((x1 - x0).natAbs + (y1 - y0).natAbs + 1) x0 y0
        (((x1 - x0).natAbs : Int) - ((y1 - y0).natAbs : Int)) := rfl

/-- Full description of `bresenhamLine`: length, endpoints, gap-freeness,
and the bounding box of the emitted points. -/
theorem bresenhamLine_full (x0 y0 x1 y1 : Int) :
    (bresenhamLine x0 y0 x1 y1).length =
        max (x1 - x0).natAbs (y1 - y0).natAbs + 1 ∧
      (bresenhamLine x0 y0 x1 y1).head? = some (Point.mk x0 y0) ∧
      (bresenhamLine x0 y0 x1 y1).getLast? = some (Point.mk x1 y1) ∧
      List.Chain' stepAdjacent (bresenhamLine x0 y0 x1 y1) ∧
      ∀ p ∈ bresenhamLine x0 y0 x1 y1,
        min x0 x1 ≤ p.x ∧ p.x ≤ max x0 x1 ∧
        min y0 y1 ≤ p.y ∧ p.y ≤ max y0 y1 := by
  rw [bresenhamLine_eq_loop x0 y0 x1 y1]
  set sx : Int := if x0 < x1 then 1 else -1 with hsxdef
  set sy : Int := if y0 < y1 then 1 else -1 with hsydef
  have hsx : sx = 1 ∨ sx = -1 := by
    rw [hsxdef]; split_ifs <;> [exact Or.inl rfl; exact Or.inr rfl]
  have hsy : sy = 1 ∨ sy = -1 := by
    rw [hsydef]; split_ifs <;> [exact Or.inl rfl; exact Or.inr rfl]
  have hx0 : x0 = x1 - sx * ((x1 - x0).natAbs : Int) := by
    rw [hsxdef]; split_ifs with h
    · rw [one_mul]; omega
    · rw [neg_one_mul]; omega
  have hy0 : y0 = y1 - sy * ((y1 - y0).natAbs : Int) := by
    rw [hsydef]; split_ifs with h
    · rw [one_mul]; omega
    · rw [neg_one_mul]; omega
  rcases le_or_lt ((y1 - y0).natAbs) ((x1 - x0).natAbs) with hc | hc
  · have hmain := bresenhamLoop_major x1 y1 ((x1 - x0).natAbs : Int)
      ((y1 - y0).natAbs : Int) sx sy hsx hsy (by positivity)
      (by exact_mod_cast hc) ((x1 - x0).natAbs) ((y1 - y0).natAbs)
      ((x1 - x0).natAbs + (y1 - y0).natAbs + 1) (by omega) (le_refl _)
      (le_refl _) (by simp [mul_comm])
    rw [← hx0, ← hy0] at hmain
    have herr0 : (((x1 - x0).natAbs : Int) - ((y1 - y0).natAbs : Int) +
        (((x1 - x0).natAbs : Int) * ((y1 - y0).natAbs : Int) -
          ((y1 - y0).natAbs : Int) * ((x1 - x0).natAbs : Int))) =
        (((x1 - x0).natAbs : Int) - ((y1 - y0).natAbs : Int)) := by ring
    rw [herr0] at hmain
    obtain ⟨hlen, hhead, hlast, hchain, hpts⟩ := hmain
    rw [← hx0, ← hy0] at hhead
    refine ⟨?_, hhead, hlast, hchain, ?_⟩
    · rw [hlen]
      omega
    · intro p hp
      obtain ⟨a2, b2, ha2, hb2, rfl⟩ := hpts p hp
      refine ⟨?_, ?_, ?_, ?_⟩
      · show min x0 x1 ≤ x1 - sx * (a2 : Int)
        rw [hsxdef]; split_ifs <;> omega
      · show x1 - sx * (a2 : Int) ≤ max x0 x1
        rw [hsxdef]; split_ifs <;> omega
      · show min y0 y1 ≤ y1 - sy * (b2 : Int)
        rw [hsydef]; split_ifs <;> omega
      · show y1 - sy * (b2 : Int) ≤ max y0 y1
        rw [hsydef]; split_ifs <;> omega
  · have hmain := bresenhamLoop_major y1 x1 ((y1 - y0).natAbs : Int)
      ((x1 - x0).natAbs : Int) sy sx hsy hsx (by positivity)
      (by exact_mod_cast le_of_lt hc) ((y1 - y0).natAbs) ((x1 - x0).natAbs)
      ((x1 - x0).natAbs + (y1 - y0).natAbs + 1) (by omega) (le_refl _)
      (le_refl _) (by simp [mul_comm])
    rw [← hx0, ← hy0] at hmain
    have herr0 : (((y1 - y0).natAbs : Int) - ((x1 - x0).natAbs : Int) +
        (((y1 - y0).natAbs : Int) * ((x1 - x0).natAbs : Int) -
          ((x1 - x0).natAbs : Int) * ((y1 - y0).natAbs : Int))) =
        (((y1 - y0).natAbs : Int) - ((x1 - x0).natAbs : Int)) := by ring
    rw [herr0] at hmain
    obtain ⟨hlen, hhead, hlast, hchain, hpts⟩ := hmain
    rw [← hx0, ← hy0] at hhead
    rw [bresenhamLoop_transpose x1 y1 ((x1 - x0).natAbs : Int)
      ((y1 - y0).natAbs : Int) sx sy]
    have hneg : (-((((x1 - x0).natAbs : Int)) - ((y1 - y0).natAbs : Int))) =
        (((y1 - y0).natAbs : Int) - ((x1 - x0).natAbs : Int)) := by ring
    rw [hneg]
    refine ⟨?_, ?_, ?_, ?_, ?_⟩
    · rw [List.length_map, hlen]
      omega
    · rw [List.head?_map, hhead]
      simp [transposePt]
    · rw [List.getLast?_map, hlast]
      simp [transposePt]
    · rw [List.chain'_map]
      refine List.Chain'.imp ?_ hchain
      intro p q hpq
      exact ⟨hpq.2, hpq.1⟩
    · intro p hp
      obtain ⟨q, hq, rfl⟩ := List.mem_map.mp hp
      obtain ⟨a2, b2, ha2, hb2, rfl⟩ := hpts q hq
      refine ⟨?_, ?_, ?_, ?_⟩
      · show min x0 x1 ≤ x1 - sx * (b2 : Int)
        rw [hsxdef]; split_ifs <;> omega
      · show x1 - sx * (b2 : Int) ≤ max x0 x1
        rw [hsxdef]; split_ifs <;> omega
      · show min y0 y1 ≤ y1 - sy * (a2 : Int)
        rw [hsydef]; split_ifs <;> omega
      · show y1 - sy * (a2 : Int) ≤ max y0 y1
        rw [hsydef]; split_ifs <;> omega

/-- C2: for all integer endpoints, `bresenhamLine` starts at the first
point, ends at the second, has no gaps (consecutive points differ by at
most one in each axis), and has length `max |dx| |dy| + 1`; identical
endpoints give the single-point list. -/
theorem bresenhamLine_spec (x0 y0 x1 y1 : Int) :
    (bresenhamLine x0 y0 x1 y1).length =
        max (x1 - x0).natAbs (y1 - y0).natAbs + 1 ∧
      (bresenhamLine x0 y0 x1 y1).head? = some (Point.mk x0 y0) ∧
      (bresenhamLine x0 y0 x1 y1).getLast? = some (Point.mk x1 y1) ∧
      List.Chain' stepAdjacent (bresenhamLine x0 y0 x1 y1) ∧
      bresenhamLine x0 y0 x0 y0 = [Point.mk x0 y0] := by
  obtain ⟨h1, h2, h3, h4, -⟩ := bresenhamLine_full x0 y0 x1 y1
  exact ⟨h1, h2, h3, h4, by simp [bresenhamLine, bresenhamLoop]⟩

/-- C1 (code divergence): with parks disabled (`numParks = 0`, reachable
through the stock UI) and the default positive fountain radius,
`generateCity` on the 800x600 canvas leaves the fountain EMPTY whatever
the random draws: the early return for "no parks requested" in
CityGenerator::generateParks also skips the fountain code, although the
rasterized circle the specification promises is non-empty. -/
theorem fountain_skipped_when_no_parks :
    (0 : Int) <
        ({ defaultConfig with numParks := 0 } : CityConfig).fountainRadius ∧
      (∀ (pcand : Nat → Int × Int) (rd : RoadDraws)
          (bdraw : Nat → BuildingDraw),
        (generateCity 800 600 { defaultConfig with numParks := 0 }
            pcand rd bdraw).fountain = []) ∧
      (midpointCircle (800 / 2) (600 / 2)
        ({ defaultConfig with numParks := 0 } : CityConfig).fountainRadius
          ).isEmpty = false := by
  refine ⟨by decide, ?_, ?_⟩
  · intro pcand rd bdraw
    rfl
  · rfl

/-- For contrast with C1: whenever `numParks ≠ 0`, the fountain is placed
exactly as specified: the rasterized circle at the canvas center
`(w/2, h/2)` with radius `fountainRadius` when that is positive, and empty
otherwise. -/
theorem fountain_placed_when_parks_requested (w h : Int) (cfg : CityConfig)
    (pcand : Nat → Int × Int) (rd : RoadDraws) (bdraw : Nat → BuildingDraw)
    (hn : cfg.numParks ≠ 0) :
    (0 < cfg.fountainRadius →
      (generateCity w h cfg pcand rd bdraw).fountain =
        midpointCircle (w / 2) (h / 2) cfg.fountainRadius) ∧
    (cfg.fountainRadius ≤ 0 →
      (generateCity w h cfg pcand rd bdraw).fountain = []) := by
  have hf : (generateCity w h cfg pcand rd bdraw).fountain =
      (generateParks w h cfg pcand).2.1 := rfl
  rw [hf]
  simp only [generateParks, if_neg hn]
  constructor
  · intro hpos
    simp [if_pos hpos]
  · intro hneg
    simp [if_neg (not_lt.mpr hneg)]

/-- Witness for the contrast theorem at a concrete configuration. -/
theorem fountain_placed_when_parks_requested_witness :
    defaultConfig.numParks ≠ 0 ∧
      (generateCity 800 600 defaultConfig (fun _ => (0, 0))
          (RoadDraws.mk (fun _ => (0, 0)) (fun _ => Point.mk 0 0)
            (fun _ => (0, 0))) (fun _ => BuildingDraw.mk 0 0 0 0 0 0 0 0)
        ).fountain = midpointCircle (800 / 2) (600 / 2)
          defaultConfig.fountainRadius :=
  ⟨by decide,
    ((fountain_placed_when_parks_requested 800 600 defaultConfig
      (fun _ => (0, 0))
      (RoadDraws.mk (fun _ => (0, 0)) (fun _ => Point.mk 0 0)
        (fun _ => (0, 0)))
      (fun _ => BuildingDraw.mk 0 0 0 0 0 0 0 0) (by decide)).1 (by decide))⟩

/-! ## Claim C6: shared attempt budgets -/

theorem parkLoop_budget (w h : Int) (cfg : CityConfig)
    (cand : Nat → Int × Int) : ∀ (rem att : Nat) (parks : List (List Point)),
    (parkLoop w h cfg cand rem att parks).2 ≤ att + rem ∧
    ((parkLoop w h cfg cand rem att parks).1.length < cfg.numParks.toNat →
      (parkLoop w h cfg cand rem att parks).2 = att + rem) ∧
    (parks.length ≤ cfg.numParks.toNat →
      (parkLoop w h cfg cand rem att parks).1.length ≤ cfg.numParks.toNat) := by
  intro rem
  induction rem with
  | zero =>
    intro att parks
    exact ⟨by simp [parkLoop], by simp [parkLoop], fun hl => by
      simpa [parkLoop] using hl⟩
  | succ r ih =>
    intro att parks
    simp only [parkLoop]
    by_cases hlt : (parks.length : Int) < cfg.numParks
    · rw [if_pos hlt]
      by_cases hv : parkValid w h cfg parks (cand att).1 (cand att).2
      · rw [if_pos hv]
        obtain ⟨i1, i2, i3⟩ := ih (att + 1)
          (parks ++ [midpointCircle (cand att).1 (cand att).2 cfg.parkRadius])
        exact ⟨by omega, fun hs => by rw [i2 hs]; omega,
          fun _ => i3 (by simp; omega)⟩
      · rw [if_neg hv]
        obtain ⟨i1, i2, i3⟩ := ih (att + 1) parks
        exact ⟨by omega, fun hs => by rw [i2 hs]; omega, fun hl => i3 hl⟩
    · rw [if_neg hlt]
      refine ⟨by omega, fun hs => ?_, fun hl => hl⟩
      exfalso
      simp only [Prod.fst] at hs
      omega

theorem buildingLoop_budget (w h : Int) (cfg : CityConfig)
    (roads : List Road) (parks : List (List Point)) (fountain : List Point)
    (draw : Nat → BuildingDraw) :
    ∀ (rem att : Nat) (bs : List Building),
    (buildingLoop w h cfg roads parks fountain draw rem att bs).2 ≤
        att + rem ∧
    ((buildingLoop w h cfg roads parks fountain draw rem att bs).1.length <
          cfg.numBuildings.toNat →
      (buildingLoop w h cfg roads parks fountain draw rem att bs).2 =
        att + rem) ∧
    (bs.length ≤ cfg.numBuildings.toNat →
      (buildingLoop w h cfg roads parks fountain draw rem att bs).1.length ≤
        cfg.numBuildings.toNat) := by
  intro rem
  induction rem with
  | zero =>
    intro att bs
    exact ⟨by simp [buildingLoop], by simp [buildingLoop], fun hl => by
      simpa [buildingLoop] using hl⟩
  | succ r ih =>
    intro att bs
    simp only [buildingLoop]
    by_cases hlt : (bs.length : Int) < cfg.numBuildings
    · rw [if_pos hlt]
      by_cases hv : isValidBuildingPosition w h roads parks fountain bs
          ((draw att).x : ℚ) ((draw att).y : ℚ)
          (if cfg.useStandardSize then cfg.standardWidth
            else (draw att).randWidth)
          (if cfg.useStandardSize then cfg.standardDepth
            else (draw att).randDepth)
      · rw [if_pos hv]
        obtain ⟨i1, i2, i3⟩ := ih (att + 1) (bs ++
          [Building.mk ((draw att).x : ℚ) ((draw att).y : ℚ)
            (if cfg.useStandardSize then cfg.standardWidth
              else (draw att).randWidth)
            (if cfg.useStandardSize then cfg.standardDepth
              else (draw att).randDepth)
            (skylineAssign cfg (draw att)).2
            (skylineAssign cfg (draw att)).1])
        exact ⟨by omega, fun hs => by rw [i2 hs]; omega,
          fun _ => i3 (by simp; omega)⟩
      · rw [if_neg hv]
        obtain ⟨i1, i2, i3⟩ := ih (att + 1) bs
        exact ⟨by omega, fun hs => by rw [i2 hs]; omega, fun hl => i3 hl⟩
    · rw [if_neg hlt]
      refine ⟨by omega, fun hs => ?_, fun hl => hl⟩
      exfalso
      simp only [Prod.fst] at hs
      omega

/-- C6: both placement loops are bounded by their shared attempt budgets:
park placement uses at most `numParks * 100` attempts in total and places
at most `numParks` parks, building placement uses at most
`numBuildings * 50` attempts and places at most `numBuildings` buildings;
in both cases a shortfall (fewer items than requested) happens only with
the whole attempt budget consumed, and the loops are total functions (no
error path). -/
theorem placement_budgets (w h : Int) (cfg : CityConfig)
    (cand : Nat → Int × Int) (roads : List Road)
    (parks : List (List Point)) (fountain : List Point)
    (draw : Nat → BuildingDraw) :
    ((generateParks w h cfg cand).2.2 ≤ (cfg.numParks * 100).toNat ∧
      (generateParks w h cfg cand).1.length ≤ cfg.numParks.toNat ∧
      ((generateParks w h cfg cand).1.length < cfg.numParks.toNat →
        (generateParks w h cfg cand).2.2 = (cfg.numParks * 100).toNat)) ∧
    ((generateBuildings w h cfg roads parks fountain draw).2 ≤
        (cfg.numBuildings * 50).toNat ∧
      (generateBuildings w h cfg roads parks fountain draw).1.length ≤
        cfg.numBuildings.toNat ∧
      ((generateBuildings w h cfg roads parks fountain draw).1.length <
          cfg.numBuildings.toNat →
        (generateBuildings w h cfg roads parks fountain draw).2 =
          (cfg.numBuildings * 50).toNat)) := by
  constructor
  · simp only [generateParks]
    by_cases h0 : cfg.numParks = 0
    · rw [if_pos h0]
      refine ⟨by simp, by simp, fun hs => ?_⟩
      exfalso
      simp [h0] at hs
    · rw [if_neg h0]
      obtain ⟨i1, i2, i3⟩ := parkLoop_budget w h cfg cand
        (cfg.numParks * 100).toNat 0 []
      exact ⟨by simpa using i1, by simpa using i3 (by simp), fun hs => by
        simpa using i2 hs⟩
  · simp only [generateBuildings]
    by_cases h0 : cfg.numBuildings = 0
    · rw [if_pos h0]
      refine ⟨by simp, by simp, fun hs => ?_⟩
      exfalso
      simp [h0] at hs
    · rw [if_neg h0]
      obtain ⟨i1, i2, i3⟩ := buildingLoop_budget w h cfg roads parks
        fountain draw (cfg.numBuildings * 50).toNat 0 []
      exact ⟨by simpa using i1, by simpa using i3 (by simp), fun hs => by
        simpa using i2 hs⟩

section

attribute [local semireducible] Rat.add Rat.mul Rat.sub Rat.inv
  Rat.ofScientific

/-- Witness for C6: a concrete run with a park and a building shortfall. -/
theorem placement_budgets_witness :
    (generateParks 200 200 shortfallConfig (fun _ => (100, 100))).1.length <
        shortfallConfig.numParks.toNat ∧
      (generateParks 200 200 shortfallConfig (fun _ => (100, 100))).2.2 =
        (shortfallConfig.numParks * 100).toNat ∧
      (generateBuildings 200 200 shortfallConfig [] [] []
          (fun _ => BuildingDraw.mk 0 0 0 0 0 0 0 0)).1.length <
        shortfallConfig.numBuildings.toNat ∧
      (generateBuildings 200 200 shortfallConfig [] [] []
          (fun _ => BuildingDraw.mk 0 0 0 0 0 0 0 0)).2 =
        (shortfallConfig.numBuildings * 50).toNat := by
  refine ⟨by decide, ?_, by decide, ?_⟩
  · exact (placement_budgets 200 200 shortfallConfig (fun _ => (100, 100))
      [] [] [] (fun _ => BuildingDraw.mk 0 0 0 0 0 0 0 0)).1.2.2 (by decide)
  · exact (placement_budgets 200 200 shortfallConfig (fun _ => (100, 100))
      [] [] [] (fun _ => BuildingDraw.mk 0 0 0 0 0 0 0 0)).2.2.2 (by decide)

end

/-- Surviving a point-removal pass is the same as being strictly outside
every circle. -/
theorem notInside_eq (circles : List Circle) (p : Point) :
    (!pointInsideSome circles p) =
      decide (∀ c ∈ circles,
        c.rsq < distSq (p.x : ℚ) (p.y : ℚ) c.centerX c.centerY) := by
  rw [Bool.eq_iff_iff]
  simp [pointInsideSome, not_le]

theorem filterRoads_foldl (circles : List Circle) :
    ∀ (roads : List Road) (acc : List Road),
      roads.foldl (fun filteredRoads road =>
        let filteredPoints := road.points.filter fun p =>
          !pointInsideSome circles p
        if filteredPoints.isEmpty then filteredRoads
        else filteredRoads ++ [Road.mk filteredPoints road.width]) acc =
      acc ++ ((roads.map fun road =>
        Road.mk (road.points.filter fun p => !pointInsideSome circles p)
          road.width).filter fun road => !road.points.isEmpty) := by
  intro roads
  induction roads with
  | nil => intro acc; simp
  | cons r t ih =>
    intro acc
    rw [List.foldl_cons]
    by_cases he : (r.points.filter fun p => !pointInsideSome circles p).isEmpty
    · have hstep : (let filteredPoints := r.points.filter fun p =>
            !pointInsideSome circles p
          if filteredPoints.isEmpty then acc
          else acc ++ [Road.mk filteredPoints r.width]) = acc := by
        show (if (r.points.filter fun p =>
            !pointInsideSome circles p).isEmpty then acc
          else acc ++ [Road.mk (r.points.filter fun p =>
            !pointInsideSome circles p) r.width]) = acc
        rw [if_pos he]
      rw [hstep, ih, List.map_cons, List.filter_cons, if_neg (by simp [he])]
    · have hstep : (let filteredPoints := r.points.filter fun p =>
            !pointInsideSome circles p
          if filteredPoints.isEmpty then acc
          else acc ++ [Road.mk filteredPoints r.width]) =
            acc ++ [Road.mk (r.points.filter fun p =>
              !pointInsideSome circles p) r.width] := by
        show (if (r.points.filter fun p =>
            !pointInsideSome circles p).isEmpty then acc
          else acc ++ [Road.mk (r.points.filter fun p =>
            !pointInsideSome circles p) r.width]) = _
        rw [if_neg he]
      rw [hstep, ih, List.map_cons, List.filter_cons, if_pos (by simp [he])]
      simp

/-- C3: `generateRoadsAvoidingObstacles` returns exactly the generated
roads filtered against the derived park and fountain circles (centroid
center, maximal radius), and consequently every point of every returned
road is strictly outside every such circle. -/
theorem generateRoadsAvoidingObstacles_spec (w h : Int) (cfg : CityConfig)
    (d : RoadDraws) (parks : List (List Point)) (fountain : List Point) :
    generateRoadsAvoidingObstacles w h cfg d parks fountain =
      roadsFilteredSpec (generateRoads w h cfg d) parks fountain ∧
    ∀ road ∈ generateRoadsAvoidingObstacles w h cfg d parks fountain,
      ∀ p ∈ road.points, ∀ c ∈ obstacleCircles parks fountain,
        c.rsq < distSq (p.x : ℚ) (p.y : ℚ) c.centerX c.centerY := by
  have hfun : (fun p => !pointInsideSome (obstacleCircles parks fountain) p) =
      fun p => decide (∀ c ∈ obstacleCircles parks fountain,
        c.rsq < distSq (p.x : ℚ) (p.y : ℚ) c.centerX c.centerY) :=
    funext (notInside_eq (obstacleCircles parks fountain))
  have heq : generateRoadsAvoidingObstacles w h cfg d parks fountain =
      roadsFilteredSpec (generateRoads w h cfg d) parks fountain := by
    simp only [generateRoadsAvoidingObstacles]
    rw [filterRoads_foldl]
    simp only [List.nil_append, roadsFilteredSpec, hfun]
  refine ⟨heq, ?_⟩
  intro road hroad p hp c hc
  rw [heq] at hroad
  simp only [roadsFilteredSpec, List.mem_filter, List.mem_map] at hroad
  obtain ⟨⟨r0, hr0, rfl⟩, hne⟩ := hroad
  simp only [List.mem_filter] at hp
  exact of_decide_eq_true hp.2 c hc

section

attribute [local semireducible] Rat.add Rat.mul Rat.sub Rat.inv
  Rat.ofScientific

/-- Witness for C3 on a concrete one-road city with one park. -/
theorem generateRoadsAvoidingObstacles_spec_witness :
    Road.mk (bresenhamLine 200 200 210 200) 2 ∈
        generateRoadsAvoidingObstacles 600 600 c3Config c3Draws
          [midpointCircle 100 100 5] [] ∧
      (mkCircle (midpointCircle 100 100 5)).rsq <
        distSq ((Point.mk 200 200).x : ℚ) ((Point.mk 200 200).y : ℚ)
          (mkCircle (midpointCircle 100 100 5)).centerX
          (mkCircle (midpointCircle 100 100 5)).centerY := by
  refine ⟨by decide, ?_⟩
  exact (generateRoadsAvoidingObstacles_spec 600 600 c3Config c3Draws
      [midpointCircle 100 100 5] []).2
    (Road.mk (bresenhamLine 200 200 210 200) 2) (by decide)
    (Point.mk 200 200) (by decide)
    (mkCircle (midpointCircle 100 100 5)) (by decide)

end

/-! ## Claim C8: the grid road pattern -/

/-- C8 counterexample: on the stock 800x600 canvas with the default grid
configuration (layoutSize 10), the grid spacing is computed from the
canvas WIDTH only and reused for the horizontal road y positions, so the
last horizontal road sits at y = 50 + 10 * 70 = 750, far below the bottom
margin 600 - 50 = 550: the claim that every emitted road lies within the
canvas margins is false as stated. -/
theorem generateGridRoads_margin_counterexample :
    ¬ (∀ road ∈ generateGridRoads 800 600 defaultConfig,
        ∀ p ∈ road.points,
          50 ≤ p.x ∧ p.x ≤ 800 - 50 ∧ 50 ≤ p.y ∧ p.y ≤ 600 - 50) := by
  intro hall
  have hmem : createRoad 50 750 750 750 14 ∈
      generateGridRoads 800 600 defaultConfig := by decide
  have hp : Point.mk 50 750 ∈ (createRoad 50 750 750 750 14).points := by
    decide
  exact absurd (hall _ hmem _ hp) (by decide)

/-- C8 amended: under the grid pattern with a valid layout size, the
generator emits exactly `layoutSize + 1` horizontal full-span roads
followed by `layoutSize + 1` vertical full-span roads (`2*(layoutSize+1)`
roads in total), each a single rasterized segment at the configured road
width, spaced by `(w - 100) / layoutSize`; PROVIDED the canvas is at least
100 px wide and at least as tall as it is wide, every road lies within the
50 px canvas margins (on a wider-than-tall canvas the horizontal roads can
leave the bottom margin, since the spacing derives from the width). -/
theorem generateGridRoads_spec (w h : Int) (cfg : CityConfig)
    (hN : 1 ≤ cfg.layoutSize) (hw : 100 ≤ w) (hwh : w ≤ h) :
    generateGridRoads w h cfg =
      ((List.range (cfg.layoutSize.toNat + 1)).map fun (i : Nat) =>
        createRoad 50 (50 + (i : Int) * ((w - 2 * 50) / cfg.layoutSize))
          (w - 50) (50 + (i : Int) * ((w - 2 * 50) / cfg.layoutSize))
          cfg.roadWidth) ++
      ((List.range (cfg.layoutSize.toNat + 1)).map fun (i : Nat) =>
        createRoad (50 + (i : Int) * ((w - 2 * 50) / cfg.layoutSize)) 50
          (50 + (i : Int) * ((w - 2 * 50) / cfg.layoutSize)) (h - 50)
          cfg.roadWidth) ∧
    (generateGridRoads w h cfg).length = 2 * (cfg.layoutSize.toNat + 1) ∧
    (∀ road ∈ generateGridRoads w h cfg,
      road.width = cfg.roadWidth ∧
      ∃ x0 y0 x1 y1, road = createRoad x0 y0 x1 y1 cfg.roadWidth) ∧
    (∀ road ∈ generateGridRoads w h cfg, ∀ p ∈ road.points,
      50 ≤ p.x ∧ p.x ≤ w - 50 ∧ 50 ≤ p.y ∧ p.y ≤ h - 50) := by
  have htn : (cfg.layoutSize + 1).toNat = cfg.layoutSize.toNat + 1 := by
    omega
  have heq : generateGridRoads w h cfg =
      ((List.range (cfg.layoutSize.toNat + 1)).map fun (i : Nat) =>
        createRoad 50 (50 + (i : Int) * ((w - 2 * 50) / cfg.layoutSize))
          (w - 50) (50 + (i : Int) * ((w - 2 * 50) / cfg.layoutSize))
          cfg.roadWidth) ++
      ((List.range (cfg.layoutSize.toNat + 1)).map fun (i : Nat) =>
        createRoad (50 + (i : Int) * ((w - 2 * 50) / cfg.layoutSize)) 50
          (50 + (i : Int) * ((w - 2 * 50) / cfg.layoutSize)) (h - 50)
          cfg.roadWidth) := by
    simp only [generateGridRoads, htn]
  have hspace0 : 0 ≤ (w - 2 * 50) / cfg.layoutSize :=
    Int.ediv_nonneg (by omega) (by omega)
  have hspaceN : cfg.layoutSize * ((w - 2 * 50) / cfg.layoutSize) ≤
      w - 2 * 50 := by
    have := Int.ediv_mul_le (w - 2 * 50) (show cfg.layoutSize ≠ 0 by omega)
    linarith [this, mul_comm ((w - 2 * 50) / cfg.layoutSize) cfg.layoutSize]
  have hypos : ∀ i : Nat, i < cfg.layoutSize.toNat + 1 →
      0 ≤ (i : Int) * ((w - 2 * 50) / cfg.layoutSize) ∧
      (i : Int) * ((w - 2 * 50) / cfg.layoutSize) ≤ w - 2 * 50 := by
    intro i hi
    constructor
    · exact mul_nonneg (by positivity) hspace0
    · have h1 : (i : Int) ≤ cfg.layoutSize := by omega
      have h2 : (i : Int) * ((w - 2 * 50) / cfg.layoutSize) ≤
          cfg.layoutSize * ((w - 2 * 50) / cfg.layoutSize) :=
        mul_le_mul_of_nonneg_right h1 hspace0
      linarith
  refine ⟨heq, ?_, ?_, ?_⟩
  · rw [heq]
    simp
    omega
  · intro road hroad
    rw [heq] at hroad
    rcases List.mem_append.mp hroad with hm | hm <;>
      obtain ⟨i, hi, rfl⟩ := List.mem_map.mp hm <;>
      exact ⟨rfl, _, _, _, _, rfl⟩
  · intro road hroad p hp
    rw [heq] at hroad
    have hww : (50 : Int) ≤ w - 50 := by omega
    rcases List.mem_append.mp hroad with hm | hm <;>
      obtain ⟨i, hi, rfl⟩ := List.mem_map.mp hm
    · have hi2 := hypos i (List.mem_range.mp hi)
      obtain ⟨-, -, -, -, hbox⟩ := bresenhamLine_full 50
        (50 + (i : Int) * ((w - 2 * 50) / cfg.layoutSize)) (w - 50)
        (50 + (i : Int) * ((w - 2 * 50) / cfg.layoutSize))
      have hb := hbox p hp
      rw [min_eq_left hww, max_eq_right hww, min_self, max_self] at hb
      refine ⟨hb.1, hb.2.1, by omega, by omega⟩
    · have hi2 := hypos i (List.mem_range.mp hi)
      have hhh : (50 : Int) ≤ h - 50 := by omega
      obtain ⟨-, -, -, -, hbox⟩ := bresenhamLine_full
        (50 + (i : Int) * ((w - 2 * 50) / cfg.layoutSize)) 50
        (50 + (i : Int) * ((w - 2 * 50) / cfg.layoutSize)) (h - 50)
      have hb := hbox p hp
      rw [min_eq_left hhh, max_eq_right hhh, min_self, max_self] at hb
      refine ⟨by omega, by omega, hb.2.2.1, hb.2.2.2⟩

/-- Witness for the amended C8 on a 600x600 canvas. -/
theorem generateGridRoads_spec_witness :
    (1 : Int) ≤ c3Config.layoutSize ∧
      (generateGridRoads 600 600 c3Config).length =
        2 * (c3Config.layoutSize.toNat + 1) :=
  ⟨by decide, (generateGridRoads_spec 600 600 c3Config (by decide)
    (by decide) (by decide)).2.1⟩

theorem not_distLt_iff (dsq m : ℚ) :
    (!distLt dsq m) = true ↔ distGe dsq m := by
  simp [distLt, distGe, not_and_or, not_lt, or_comm]

theorem distSq_comm (a b c d : ℚ) : distSq a b c d = distSq c d a b := by
  simp only [distSq]
  ring

theorem midpointCircle_ne_nil (cx cy r : Int) : midpointCircle cx cy r ≠ [] := by
  simp [midpointCircle, addSymmetricPoints]

/-- Coordinate sums of the octant loop output: each mirrored batch sums to
eight times the center. -/
theorem midpointLoop_sum (cx cy : Int) : ∀ (fuel : Nat) (x y d : Int),
    (((midpointLoop cx cy fuel x y d).map fun p => (p.x : ℚ)).sum =
      ((midpointLoop cx cy fuel x y d).length : ℚ) * (cx : ℚ)) ∧
    (((midpointLoop cx cy fuel x y d).map fun p => (p.y : ℚ)).sum =
      ((midpointLoop cx cy fuel x y d).length : ℚ) * (cy : ℚ)) := by
  intro fuel
  induction fuel with
  | zero => intro x y d; simp [midpointLoop]
  | succ n ih =>
    intro x y d
    simp only [midpointLoop]
    by_cases hxy : x < y
    · rw [if_pos hxy]
      obtain ⟨ihx, ihy⟩ := ih (x + 1) (if d < 0 then y else y - 1)
        (if d < 0 then d + 2 * (x + 1) + 1 else d + 2 * (x + 1 - (y - 1)) + 1)
      constructor
      · simp only [addSymmetricPoints, List.map_append, List.sum_append,
          List.map_cons, List.map_nil, List.sum_cons, List.sum_nil,
          List.length_append, List.length_cons, List.length_nil, ihx]
        push_cast
        ring
      · simp only [addSymmetricPoints, List.map_append, List.sum_append,
          List.map_cons, List.map_nil, List.sum_cons, List.sum_nil,
          List.length_append, List.length_cons, List.length_nil, ihy]
        push_cast
        ring
    · rw [if_neg hxy]
      simp

/-- The float average of the rasterized circle points recovers the exact
placement center. -/
theorem centroid_midpointCircle (cx cy r : Int) :
    centroid (midpointCircle cx cy r) = ((cx : ℚ), (cy : ℚ)) := by
  have hx := (midpointLoop_sum cx cy (r.toNat + 1) 0 r (1 - r)).1
  have hy := (midpointLoop_sum cx cy (r.toNat + 1) 0 r (1 - r)).2
  have hlen : ((midpointCircle cx cy r).length : ℚ) ≠ 0 := by
    have : (midpointCircle cx cy r).length =
        8 + (midpointLoop cx cy (r.toNat + 1) 0 r (1 - r)).length := by
      simp [midpointCircle, addSymmetricPoints]
      omega
    rw [this]
    positivity
  have hsx : ((midpointCircle cx cy r).map fun p => (p.x : ℚ)).sum =
      ((midpointCircle cx cy r).length : ℚ) * (cx : ℚ) := by
    simp only [midpointCircle, List.map_append, List.sum_append,
      addSymmetricPoints, List.map_cons, List.map_nil, List.sum_cons,
      List.sum_nil, List.length_append, List.length_cons, List.length_nil,
      hx]
    push_cast
    ring
  have hsy : ((midpointCircle cx cy r).map fun p => (p.y : ℚ)).sum =
      ((midpointCircle cx cy r).length : ℚ) * (cy : ℚ) := by
    simp only [midpointCircle, List.map_append, List.sum_append,
      addSymmetricPoints, List.map_cons, List.map_nil, List.sum_cons,
      List.sum_nil, List.length_append, List.length_cons, List.length_nil,
      hy]
    push_cast
    ring
  simp only [centroid, hsx, hsy]
  rw [mul_comm (((midpointCircle cx cy r).length : ℚ)) ((cx : ℚ)),
    mul_comm (((midpointCircle cx cy r).length : ℚ)) ((cy : ℚ)),
    mul_div_assoc, mul_div_assoc, div_self hlen, mul_one, mul_one]

/-- The park loop preserves the separation invariants. -/
theorem parkLoop_inv (w h : Int) (cfg : CityConfig)
    (cand : Nat → Int × Int) : ∀ (rem att : Nat) (parks : List (List Point)),
    (List.Pairwise (parksSeparated cfg) parks ∧
      ∀ park ∈ parks, park ≠ [] ∧
        (0 < cfg.fountainRadius → parkClearOfFountain w h cfg park)) →
    List.Pairwise (parksSeparated cfg) (parkLoop w h cfg cand rem att parks).1 ∧
      ∀ park ∈ (parkLoop w h cfg cand rem att parks).1, park ≠ [] ∧
        (0 < cfg.fountainRadius → parkClearOfFountain w h cfg park) := by
  intro rem
  induction rem with
  | zero => intro att parks hinv; exact hinv
  | succ r ih =>
    intro att parks hinv
    simp only [parkLoop]
    by_cases hlt : (parks.length : Int) < cfg.numParks
    · rw [if_pos hlt]
      by_cases hv : parkValid w h cfg parks (cand att).1 (cand att).2
      · rw [if_pos hv]
        refine ih (att + 1) _ ?_
        obtain ⟨hpair, hall⟩ := hinv
        have hcnew : centroid (midpointCircle (cand att).1 (cand att).2
            cfg.parkRadius) = (((cand att).1 : ℚ), ((cand att).2 : ℚ)) :=
          centroid_midpointCircle _ _ _
        simp only [parkValid, Bool.and_eq_true, List.all_eq_true] at hv
        obtain ⟨hv1, hv2⟩ := hv
        constructor
        · rw [List.pairwise_append]
          refine ⟨hpair, List.pairwise_singleton _ _, ?_⟩
          intro a ha b hb
          simp only [List.mem_singleton] at hb
          subst hb
          have hane : a ≠ [] := (hall a ha).1
          have hcheck := hv1 a ha
          rw [if_neg (by simpa [List.isEmpty_iff] using hane)] at hcheck
          rw [not_distLt_iff] at hcheck
          unfold parksSeparated
          rw [hcnew, distSq_comm]
          exact hcheck
        · intro park hpark
          rcases List.mem_append.mp hpark with hm | hm
          · exact hall park hm
          · simp only [List.mem_singleton] at hm
            subst hm
            refine ⟨midpointCircle_ne_nil _ _ _, ?_⟩
            intro hfr
            rw [if_pos hfr] at hv2
            rw [not_distLt_iff] at hv2
            unfold parkClearOfFountain
            rw [hcnew]
            exact hv2
      · rw [if_neg hv]
        exact ih (att + 1) parks hinv
    · rw [if_neg hlt]
      exact hinv

/-- C4: in every generated city, the derived centers of every pair of
distinct placed parks are at distance at least `2.5 * parkRadius`, and
when a fountain is configured every placed park center is at distance at
least `parkRadius + fountainRadius + 30` from the canvas center
`(w/2, h/2)` (the fountain center). -/
theorem park_placement_invariants (w h : Int) (cfg : CityConfig)
    (pcand : Nat → Int × Int) (rd : RoadDraws)
    (bdraw : Nat → BuildingDraw) :
    List.Pairwise (parksSeparated cfg)
      (generateCity w h cfg pcand rd bdraw).parks ∧
    (0 < cfg.fountainRadius →
      ∀ park ∈ (generateCity w h cfg pcand rd bdraw).parks,
        parkClearOfFountain w h cfg park) := by
  have hparks : (generateCity w h cfg pcand rd bdraw).parks =
      (generateParks w h cfg pcand).1 := rfl
  rw [hparks]
  simp only [generateParks]
  by_cases h0 : cfg.numParks = 0
  · rw [if_pos h0]
    exact ⟨List.Pairwise.nil, fun _ park hp => absurd hp
      (List.not_mem_nil park)⟩
  · rw [if_neg h0]
    have hres := parkLoop_inv w h cfg pcand (cfg.numParks * 100).toNat 0 []
      ⟨List.Pairwise.nil, fun park hp => absurd hp (List.not_mem_nil park)⟩
    exact ⟨hres.1, fun hfr park hp => (hres.2 park hp).2 hfr⟩

section

attribute [local semireducible] Rat.add Rat.mul Rat.sub Rat.inv
  Rat.ofScientific

/-- Witness for C4 on a concrete generated city with two parks. -/
theorem park_placement_invariants_witness :
    (0 : Int) < c4Config.fountainRadius ∧
      midpointCircle 100 100 10 ∈
        (generateCity 600 600 c4Config c4ParkCand c4RoadDraws
          c4BuildingDraw).parks ∧
      parkClearOfFountain 600 600 c4Config (midpointCircle 100 100 10) := by
  refine ⟨by decide, by decide, ?_⟩
  exact (park_placement_invariants 600 600 c4Config c4ParkCand c4RoadDraws
      c4BuildingDraw).2 (by decide) (midpointCircle 100 100 10) (by decide)

end

theorem buildingsSeparated_symm {b1 b2 : Building}
    (h : buildingsSeparated b1 b2) : buildingsSeparated b2 b1 := by
  rcases h with h | h | h | h
  · exact Or.inr (Or.inl (by linarith))
  · exact Or.inl (by linarith)
  · exact Or.inr (Or.inr (Or.inr (by linarith)))
  · exact Or.inr (Or.inr (Or.inl (by linarith)))

/-- Decomposition of a successful `isValidBuildingPosition` call into the
individual acceptance conditions. -/
theorem isValid_decomp {w h : Int} {roads : List Road}
    {parks : List (List Point)} {fountain : List Point}
    {bs : List Building} {x y wd dp : ℚ}
    (hval : isValidBuildingPosition w h roads parks fountain bs
      x y wd dp = true) :
    (∀ eb ∈ bs,
      x + wd / 2 + 25 < eb.x - eb.width / 2 ∨
      x - wd / 2 - 25 > eb.x + eb.width / 2 ∨
      y + dp / 2 + 25 < eb.y - eb.depth / 2 ∨
      y - dp / 2 - 25 > eb.y + eb.depth / 2) ∧
    (∀ park ∈ parks, park ≠ [] →
      (ltSqrtPlusBuf
        (distSq (max (x - wd / 2 - 35)
            (min (centroid park).1 (x + wd / 2 + 35)))
          (max (y - dp / 2 - 35) (min (centroid park).2 (y + dp / 2 + 35)))
          (centroid park).1 (centroid park).2)
        (maxDistSqFrom (centroid park).1 (centroid park).2 park) 35 =
          false) ∧
      (∀ pt ∈ park,
        (pt.x : ℚ) < x - wd / 2 - 35 ∨ (pt.x : ℚ) > x + wd / 2 + 35 ∨
        (pt.y : ℚ) < y - dp / 2 - 35 ∨ (pt.y : ℚ) > y + dp / 2 + 35)) ∧
    (fountain ≠ [] →
      ltSqrtPlusBuf
        (distSq (max (x - wd / 2 - 35)
            (min (centroid fountain).1 (x + wd / 2 + 35)))
          (max (y - dp / 2 - 35)
            (min (centroid fountain).2 (y + dp / 2 + 35)))
          (centroid fountain).1 (centroid fountain).2)
        (maxDistSqFrom (centroid fountain).1 (centroid fountain).2
          fountain) 35 = false) ∧
    (∀ road ∈ roads, ∀ pt ∈ road.points,
      (pt.x : ℚ) < x - wd / 2 - 5 - (road.width : ℚ) / 2 ∨
      (pt.x : ℚ) > x + wd / 2 + 5 + (road.width : ℚ) / 2 ∨
      (pt.y : ℚ) < y - dp / 2 - 5 - (road.width : ℚ) / 2 ∨
      (pt.y : ℚ) > y + dp / 2 + 5 + (road.width : ℚ) / 2) := by
  simp only [isValidBuildingPosition] at hval
  split_ifs at hval with h1 h2 h3 h4 h5
  all_goals simp at hval
  simp at h2 h3 h4 h5
  refine ⟨?_, ?_, ?_, ?_⟩
  · intro eb heb
    have himp := h2 eb heb
    by_cases hA : x + wd / 2 + 25 < eb.x - eb.width / 2
    · exact Or.inl hA
    · by_cases hB : x - wd / 2 - 25 > eb.x + eb.width / 2
      · exact Or.inr (Or.inl hB)
      · by_cases hC : y + dp / 2 + 25 < eb.y - eb.depth / 2
        · exact Or.inr (Or.inr (Or.inl hC))
        · refine Or.inr (Or.inr (Or.inr ?_))
          have hd := himp (by linarith) (by linarith) (by linarith)
          linarith
  · intro park hpark hne
    have h3b := h3 park hpark hne
    refine ⟨h3b.1, ?_⟩
    intro pt hpt
    have himp := h3b.2 pt hpt
    by_cases hA : (pt.x : ℚ) < x - wd / 2 - 35
    · exact Or.inl hA
    · by_cases hB : (pt.x : ℚ) > x + wd / 2 + 35
      · exact Or.inr (Or.inl hB)
      · by_cases hC : (pt.y : ℚ) < y - dp / 2 - 35
        · exact Or.inr (Or.inr (Or.inl hC))
        · refine Or.inr (Or.inr (Or.inr ?_))
          have hd := himp (by linarith) (by linarith) (by linarith)
          linarith
  · intro hne
    exact h4 hne
  · intro road hroad pt hpt
    have himp := h5 road hroad pt hpt
    by_cases hA : (pt.x : ℚ) < x - wd / 2 - 5 - (road.width : ℚ) / 2
    · exact Or.inl hA
    · by_cases hB : (pt.x : ℚ) > x + wd / 2 + 5 + (road.width : ℚ) / 2
      · exact Or.inr (Or.inl hB)
      · by_cases hC : (pt.y : ℚ) < y - dp / 2 - 5 - (road.width : ℚ) / 2
        · exact Or.inr (Or.inr (Or.inl hC))
        · refine Or.inr (Or.inr (Or.inr ?_))
          have hd := himp (by linarith) (by linarith) (by linarith)
          linarith

/-- The building loop preserves pairwise separation and obstacle
clearance of all placed buildings. -/
theorem buildingLoop_inv (w h : Int) (cfg : CityConfig) (roads : List Road)
    (parks : List (List Point)) (fountain : List Point)
    (draw : Nat → BuildingDraw) :
    ∀ (rem att : Nat) (bs : List Building),
    (List.Pairwise buildingsSeparated bs ∧
      ∀ b ∈ bs, buildingClearAll roads parks fountain b) →
    List.Pairwise buildingsSeparated
        (buildingLoop w h cfg roads parks fountain draw rem att bs).1 ∧
      ∀ b ∈ (buildingLoop w h cfg roads parks fountain draw rem att bs).1,
        buildingClearAll roads parks fountain b := by
  intro rem
  induction rem with
  | zero => intro att bs hinv; exact hinv
  | succ r ih =>
    intro att bs hinv
    simp only [buildingLoop]
    by_cases hlt : (bs.length : Int) < cfg.numBuildings
    · rw [if_pos hlt]
      by_cases hv : isValidBuildingPosition w h roads parks fountain bs
          ((draw att).x : ℚ) ((draw att).y : ℚ)
          (if cfg.useStandardSize then cfg.standardWidth
            else (draw att).randWidth)
          (if cfg.useStandardSize then cfg.standardDepth
            else (draw att).randDepth)
      · rw [if_pos hv]
        refine ih (att + 1) _ ?_
        obtain ⟨hpair, hall⟩ := hinv
        obtain ⟨hsep, hparkok, hfntok, hroadok⟩ := isValid_decomp hv
        constructor
        · rw [List.pairwise_append]
          refine ⟨hpair, List.pairwise_singleton _ _, ?_⟩
          intro a ha b hb
          simp only [List.mem_singleton] at hb
          subst hb
          exact buildingsSeparated_symm (hsep a ha)
        · intro b hb
          rcases List.mem_append.mp hb with hm | hm
          · exact hall b hm
          · simp only [List.mem_singleton] at hm
            subst hm
            exact ⟨fun park hp hne => hparkok park hp hne,
              fun hne => hfntok hne, fun road hr => hroadok road hr⟩
      · rw [if_neg hv]
        exact ih (att + 1) bs hinv
    · rw [if_neg hlt]
      exact hinv

/-- C5: in every generated city, the footprint boxes of every pair of
distinct placed buildings are separated by the strict 25px buffer; every
placed building passes both stages of the 35px-buffered circle test
against every park and the fountain; and no road point lies inside any
building box expanded by half the road width plus the 5px buffer. -/
theorem building_placement_invariants (w h : Int) (cfg : CityConfig)
    (pcand : Nat → Int × Int) (rd : RoadDraws)
    (bdraw : Nat → BuildingDraw) :
    List.Pairwise buildingsSeparated
      (generateCity w h cfg pcand rd bdraw).buildings ∧
    ∀ b ∈ (generateCity w h cfg pcand rd bdraw).buildings,
      (∀ park ∈ (generateCity w h cfg pcand rd bdraw).parks, park ≠ [] →
        buildingClearOfCircle b park ∧ buildingClearOfPoints b park) ∧
      ((generateCity w h cfg pcand rd bdraw).fountain ≠ [] →
        buildingClearOfCircle b
          (generateCity w h cfg pcand rd bdraw).fountain) ∧
      (∀ road ∈ (generateCity w h cfg pcand rd bdraw).roads,
        buildingClearOfRoad b road) := by
  have hb : (generateCity w h cfg pcand rd bdraw).buildings =
      (generateBuildings w h cfg
        (generateRoadsAvoidingObstacles w h cfg rd
          (generateParks w h cfg pcand).1 (generateParks w h cfg pcand).2.1)
        (generateParks w h cfg pcand).1
        (generateParks w h cfg pcand).2.1 bdraw).1 := rfl
  have hp : (generateCity w h cfg pcand rd bdraw).parks =
      (generateParks w h cfg pcand).1 := rfl
  have hf : (generateCity w h cfg pcand rd bdraw).fountain =
      (generateParks w h cfg pcand).2.1 := rfl
  have hr : (generateCity w h cfg pcand rd bdraw).roads =
      generateRoadsAvoidingObstacles w h cfg rd
        (generateParks w h cfg pcand).1
        (generateParks w h cfg pcand).2.1 := rfl
  rw [hb, hp, hf, hr]
  simp only [generateBuildings]
  by_cases h0 : cfg.numBuildings = 0
  · rw [if_pos h0]
    exact ⟨List.Pairwise.nil, fun b hb2 => absurd hb2 (List.not_mem_nil b)⟩
  · rw [if_neg h0]
    have hres := buildingLoop_inv w h cfg
      (generateRoadsAvoidingObstacles w h cfg rd
        (generateParks w h cfg pcand).1 (generateParks w h cfg pcand).2.1)
      (generateParks w h cfg pcand).1
      (generateParks w h cfg pcand).2.1 bdraw
      (cfg.numBuildings * 50).toNat 0 []
      ⟨List.Pairwise.nil, fun b hb2 => absurd hb2 (List.not_mem_nil b)⟩
    exact ⟨hres.1, fun b hb2 => ⟨(hres.2 b hb2).1, (hres.2 b hb2).2.1,
      (hres.2 b hb2).2.2⟩⟩

section

attribute [local semireducible] Rat.add Rat.mul Rat.sub Rat.inv
  Rat.ofScientific

/-- Witness for C5 on a concrete generated city with two buildings, one
park, a fountain and one road. -/
theorem building_placement_invariants_witness :
    Building.mk 450 150 30 30 10 BuildingType.LOW_RISE ∈
        (generateCity 600 600 c5Config c5ParkCand c5RoadDraws
          c5BuildingDraw).buildings ∧
      midpointCircle 150 150 2 ∈
        (generateCity 600 600 c5Config c5ParkCand c5RoadDraws
          c5BuildingDraw).parks ∧
      (buildingClearOfCircle
          (Building.mk 450 150 30 30 10 BuildingType.LOW_RISE)
          (midpointCircle 150 150 2) ∧
        buildingClearOfPoints
          (Building.mk 450 150 30 30 10 BuildingType.LOW_RISE)
          (midpointCircle 150 150 2)) ∧
      buildingClearOfCircle
        (Building.mk 450 150 30 30 10 BuildingType.LOW_RISE)
        (generateCity 600 600 c5Config c5ParkCand c5RoadDraws
          c5BuildingDraw).fountain := by
  refine ⟨by decide, by decide, ?_, ?_⟩
  · exact ((building_placement_invariants 600 600 c5Config c5ParkCand
      c5RoadDraws c5BuildingDraw).2 _ (by decide)).1
      (midpointCircle 150 150 2) (by decide) (by decide)
  · exact ((building_placement_invariants 600 600 c5Config c5ParkCand
      c5RoadDraws c5BuildingDraw).2 _ (by decide)).2.1 (by decide)

end

end CityGen
